import Mathlib

/-!
Syscall layer and scheduler of the teaching kernel.

A shallow embedding of `lib/syscall_all.c` and `lib/sched.c`.

* A kernel state is a record `Kernel M`: the environment table `envs`, the
  pointer `curenv` (a slot index), the scheduler's static counter `i`, the
  trap frame saved below `KERNEL_SP`, the one below `TIMESTACK`, and the state
  `M` of the memory subsystem (page tables, frame allocator, page contents).
* Pointers to `struct Env` are slot indices into `envs`; a pointer to a
  `struct Page` is a frame number; a page directory pointer is a handle.
* Everything the two files call but do not define (the constants of `mmu.h`,
  `env.h`, `error.h`, the `ROUNDDOWN` rounding, `envid2env`, `env_alloc`,
  `env_destroy`, `env_run`, the `page_*` functions, `bcopy` on page contents)
  is a field of the record `Collab M`: the code is verified for every
  implementation of its collaborators, and what a proof needs to know about a
  collaborator is an explicit, named contract.
* `u_int` values are natural numbers; the code only compares, masks and stores
  them, so no arithmetic can wrap.  `int` results are integers.
* `printf` diagnostics are not modelled: they touch no kernel state.
-/

namespace Mos

/-- The saved register set `struct Trapframe`: the general registers and the
coprocessor-0 registers.  The sources read and write `regs[2]`, `cp0_epc` and
`pc`, and copy the frame as a whole. -/
structure Trapframe where
  regs : List Nat
  cp0_status : Nat
  hi : Nat
  lo : Nat
  cp0_badvaddr : Nat
  cp0_cause : Nat
  cp0_epc : Nat
  pc : Nat
deriving DecidableEq

/-- One slot of the environment table, `struct Env`, with the fields the
sources access (and `env_parent_id`, which identifier resolution reads). -/
structure Env where
  env_tf : Trapframe
  env_id : Nat
  env_parent_id : Nat
  env_status : Nat
  env_pgdir : Nat
  env_ipc_value : Nat
  env_ipc_from : Nat
  env_ipc_recving : Nat
  env_ipc_dstva : Nat
  env_ipc_perm : Nat
  env_pgfault_handler : Nat
  env_xstacktop : Nat
deriving DecidableEq

/-- The kernel state seen by the syscall layer and the scheduler. `sched_i` is
the `static int i` of `sched_yield`; `ksp_tf` is the trap frame stored at
`KERNEL_SP - sizeof(struct Trapframe)`, `timestack_tf` the one stored at
`TIMESTACK - sizeof(struct Trapframe)`; `mem` is the memory subsystem. -/
structure Kernel (M : Type) where
  envs : Nat → Env
  curenv : Nat
  sched_i : Nat
  ksp_tf : Trapframe
  timestack_tf : Trapframe
  mem : M

/-- The assignment `envs[e] = v` to one slot of the table. -/
def Kernel.setEnv {M : Type} (k : Kernel M) (e : Nat) (v : Env) : Kernel M :=
  { k with envs := fun j => if j = e then v else k.envs j }

/-- What `syscall_all.c` and `sched.c` use without defining it: constants of
the headers, the rounding of `types.h`, and the functions of the environment
substrate, the page-table layer and the frame allocator.  A function that
returns a status and an out-parameter returns a pair; a function that writes
memory returns the new memory state.  `page_lookup` yields the frame and the
page-table entry `*ppte` it found, or `none` for the null pointer. -/
structure Collab (M : Type) where
  BY2PG : Nat
  UTOP : Nat
  USTACKTOP : Nat
  PTE_V : Nat
  PTE_R : Nat
  PTE_COW : Nat
  PTE_LIBRARY : Nat
  NENV : Nat
  ENV_FREE : Nat
  ENV_RUNNABLE : Nat
  ENV_NOT_RUNNABLE : Nat
  E_BAD_ENV : Nat
  E_INVAL : Nat
  E_NO_MEM : Nat
  E_NO_FREE_ENV : Nat
  E_IPC_NOT_RECV : Nat
  ROUNDDOWN : Nat → Nat → Nat
  envid2env : (Nat → Env) → Nat → Nat → Nat → Int × Nat
  env_alloc : Kernel M → Nat → Int × Nat × Kernel M
  env_destroy : Kernel M → Nat → Kernel M
  env_run : Kernel M → Nat → Kernel M
  page_alloc : M → Int × Nat × M
  page_free : M → Nat → M
  page_insert : M → Nat → Nat → Nat → Nat → Int × M
  page_lookup : M → Nat → Nat → Option (Nat × Nat)
  page_remove : M → Nat → Nat → M
  va2pa : M → Nat → Nat → Nat
  KADDR : Nat → Nat
  page2kva : Nat → Nat
  bcopy : M → Nat → Nat → Nat → M

variable {M : Type}

/-- The function `sys_getenvid`. -/
def sys_getenvid (k : Kernel M) : Nat :=
  (k.envs k.curenv).env_id

/-- The loop of `sched_yield`: probe slot `i`; a runnable slot is dispatched
after `i` has been advanced; otherwise advance `i` and go round again.  The
loop of the source has no exit other than the dispatch, so the model counts
the probes it may still make and yields `none` when they are used up. -/
def sched_yield (X : Collab M) : Nat → Kernel M → Option (Kernel M)
  | 0, _ => none
  | fuel + 1, k =>
    if (k.envs k.sched_i).env_status = X.ENV_RUNNABLE then
      some (X.env_run { k with sched_i := (k.sched_i + 1) % X.NENV } k.sched_i)
    else
      sched_yield X fuel { k with sched_i := (k.sched_i + 1) % X.NENV }

/-- The function `sys_yield`: copy the syscall-entry trap frame to the time
stack, then schedule. -/
def sys_yield (X : Collab M) (fuel : Nat) (k : Kernel M) : Option (Kernel M) :=
  sched_yield X fuel { k with timestack_tf := k.ksp_tf }

/-- The function `sys_env_destroy`. -/
def sys_env_destroy (X : Collab M) (k : Kernel M) (envid : Nat) : Int × Kernel M :=
  let r := X.envid2env k.envs k.curenv envid 1
  if r.1 < 0 then (r.1, k)
  else (0, X.env_destroy k r.2)

/-- The function `sys_set_pgfault_handler`. -/
def sys_set_pgfault_handler (X : Collab M) (k : Kernel M) (envid func xstacktop : Nat) :
    Int × Kernel M :=
  let r := X.envid2env k.envs k.curenv envid 1
  if r.1 < 0 then (-(X.E_BAD_ENV : Int), k)
  else
    (0, k.setEnv r.2
      { k.envs r.2 with env_pgfault_handler := func, env_xstacktop := xstacktop })

/-- The function `sys_mem_alloc`. -/
def sys_mem_alloc (X : Collab M) (k : Kernel M) (envid va perm : Nat) : Int × Kernel M :=
  if va ≥ X.UTOP ∨ va % X.BY2PG ≠ 0 then (-(X.E_INVAL : Int), k)
  else if perm &&& X.PTE_V = 0 then (-(X.E_INVAL : Int), k)
  else
    let r := X.envid2env k.envs k.curenv envid 1
    if r.1 < 0 then (-(X.E_BAD_ENV : Int), k)
    else
      let a := X.page_alloc k.mem
      if a.1 < 0 then (-(X.E_NO_MEM : Int), { k with mem := a.2.2 })
      else
        let ins := X.page_insert a.2.2 (k.envs r.2).env_pgdir a.2.1 va perm
        if ins.1 < 0 then
          (-(X.E_NO_MEM : Int), { k with mem := X.page_free ins.2 a.2.1 })
        else (0, { k with mem := ins.2 })

/-- The function `sys_mem_map`. -/
def sys_mem_map (X : Collab M) (k : Kernel M) (srcid srcva dstid dstva perm : Nat) :
    Int × Kernel M :=
  let round_srcva := X.ROUNDDOWN srcva X.BY2PG
  let round_dstva := X.ROUNDDOWN dstva X.BY2PG
  let s := X.envid2env k.envs k.curenv srcid 1
  if s.1 < 0 then (-(X.E_BAD_ENV : Int), k)
  else
    let d := X.envid2env k.envs k.curenv dstid 1
    if d.1 < 0 then (-(X.E_BAD_ENV : Int), k)
    else if srcva ≥ X.UTOP ∨ dstva ≥ X.UTOP then (-(X.E_INVAL : Int), k)
    else if perm &&& X.PTE_V = 0 then (-(X.E_INVAL : Int), k)
    else
      match X.page_lookup k.mem (k.envs s.2).env_pgdir round_srcva with
      | none => (-(X.E_INVAL : Int), k)
      | some (ppage, pte) =>
        if perm &&& X.PTE_R ≠ 0 ∧ pte &&& X.PTE_R = 0 then (-(X.E_INVAL : Int), k)
        else
          let ins := X.page_insert k.mem (k.envs d.2).env_pgdir ppage round_dstva perm
          if ins.1 < 0 then (-(X.E_NO_MEM : Int), { k with mem := ins.2 })
          else (0, { k with mem := ins.2 })

/-- The function `sys_mem_unmap`. -/
def sys_mem_unmap (X : Collab M) (k : Kernel M) (envid va : Nat) : Int × Kernel M :=
  if va > X.UTOP ∨ va % X.BY2PG ≠ 0 then (-(X.E_INVAL : Int), k)
  else
    let r := X.envid2env k.envs k.curenv envid 1
    if r.1 < 0 then (-(X.E_BAD_ENV : Int), k)
    else (0, { k with mem := X.page_remove k.mem (k.envs r.2).env_pgdir va })

/-- The function `sys_env_alloc`.  The stores into the child `e` are made in
the order of the source: the parent's trap frame, the status, `pc`, `regs[2]`;
then the stack page is allocated, filled from the parent's stack page and
inserted below `USTACKTOP`. -/
def sys_env_alloc (X : Collab M) (k : Kernel M) : Int × Kernel M :=
  let k1 := k.setEnv k.curenv { k.envs k.curenv with env_tf := k.ksp_tf }
  let r := X.env_alloc k1 (k1.envs k1.curenv).env_id
  if r.1 < 0 then (-(X.E_NO_FREE_ENV : Int), r.2.2)
  else
    let e := r.2.1
    let k2 := r.2.2
    let k3 := k2.setEnv e { k2.envs e with env_tf := (k2.envs k2.curenv).env_tf }
    let k4 := k3.setEnv e { k3.envs e with env_status := X.ENV_NOT_RUNNABLE }
    let k5 := k4.setEnv e
      { k4.envs e with env_tf := { (k4.envs e).env_tf with pc := (k4.envs e).env_tf.cp0_epc } }
    let k6 := k5.setEnv e
      { k5.envs e with
        env_tf := { (k5.envs e).env_tf with regs := (k5.envs e).env_tf.regs.set 2 0 } }
    let a := X.page_alloc k6.mem
    if a.1 < 0 then (a.1, { k6 with mem := a.2.2 })
    else
      let m1 := X.bcopy a.2.2
        (X.KADDR (X.va2pa a.2.2 (k6.envs k6.curenv).env_pgdir (X.USTACKTOP - X.BY2PG)))
        (X.page2kva a.2.1) X.BY2PG
      let ins := X.page_insert m1 (k6.envs e).env_pgdir a.2.1 (X.USTACKTOP - X.BY2PG)
        (X.PTE_R ||| X.PTE_V)
      if ins.1 < 0 then (ins.1, { k6 with mem := ins.2 })
      else (((k6.envs e).env_id : Int), { k6 with mem := ins.2 })

/-- The function `sys_set_env_status`. -/
def sys_set_env_status (X : Collab M) (k : Kernel M) (envid status : Nat) : Int × Kernel M :=
  if status ≠ X.ENV_RUNNABLE ∧ status ≠ X.ENV_NOT_RUNNABLE ∧ status ≠ X.ENV_FREE then
    (-(X.E_INVAL : Int), k)
  else
    let r := X.envid2env k.envs k.curenv envid 1
    if r.1 < 0 then (-(X.E_BAD_ENV : Int), k)
    else (0, k.setEnv r.2 { k.envs r.2 with env_status := status })

/-- The function `sys_ipc_recv`.  On a bad `dstva` it returns to its caller
with the state untouched; otherwise it marks the current environment
receptive and not runnable, records `dstva`, and yields. -/
def sys_ipc_recv (X : Collab M) (fuel : Nat) (k : Kernel M) (dstva : Nat) :
    Option (Kernel M) :=
  if dstva > X.UTOP ∨ dstva % X.BY2PG ≠ 0 then some k
  else
    sys_yield X fuel
      (k.setEnv k.curenv
        { k.envs k.curenv with
          env_ipc_recving := 1
          env_status := X.ENV_NOT_RUNNABLE
          env_ipc_dstva := dstva })

/-- The tail of `sys_ipc_can_send` after the page transfer was decided: the
five stores into the target `e`, with `p` the value stored in
`env_ipc_perm`. -/
def ipc_deliver (X : Collab M) (k : Kernel M) (e value p : Nat) : Kernel M :=
  k.setEnv e
    { k.envs e with
      env_ipc_perm := p
      env_ipc_from := (k.envs k.curenv).env_id
      env_ipc_value := value
      env_ipc_recving := 0
      env_status := X.ENV_RUNNABLE }

/-- The function `sys_ipc_can_send`. -/
def sys_ipc_can_send (X : Collab M) (k : Kernel M) (envid value srcva perm : Nat) :
    Int × Kernel M :=
  let r := X.envid2env k.envs k.curenv envid 0
  if r.1 < 0 then (-(X.E_BAD_ENV : Int), k)
  else
    let e := r.2
    if (k.envs e).env_ipc_recving = 0 then (-(X.E_IPC_NOT_RECV : Int), k)
    else if (k.envs e).env_ipc_dstva ≥ X.UTOP ∨ srcva ≥ X.UTOP then (-(X.E_INVAL : Int), k)
    else if srcva ≠ 0 ∧ (k.envs e).env_ipc_dstva ≠ 0 then
      match X.page_lookup k.mem (k.envs k.curenv).env_pgdir srcva with
      | none => (-(X.E_INVAL : Int), k)
      | some (p, _) =>
        let ins := X.page_insert k.mem (k.envs e).env_pgdir p (k.envs e).env_ipc_dstva perm
        if ins.1 < 0 then (ins.1, { k with mem := ins.2 })
        else (0, ipc_deliver X { k with mem := ins.2 } e value perm)
    else (0, ipc_deliver X k e value 0)

/-- The call `sys_mem_alloc(envid, va, perm)` made `n` times in a row: the
results in order and the final state. -/
def sys_mem_alloc_repeat (X : Collab M) (envid va perm : Nat) :
    Nat → Kernel M → List Int × Kernel M
  | 0, k => ([], k)
  | n + 1, k =>
    let r := sys_mem_alloc X k envid va perm
    let rest := sys_mem_alloc_repeat X envid va perm n r.2
    (r.1 :: rest.1, rest.2)

/-! ## A reference implementation of the collaborators

Used to run the code on concrete inputs.  Its constants are those of the MIPS
teaching kernel; its functions follow the interface descriptions of the
specification. -/

/-- State of the reference memory subsystem and environment substrate: the
free frames, the page-table pages that exist (page directory, directory
index), the entries (page directory, virtual page number) ↦ (frame, entry
flags), and the counter from which identifiers are generated. -/
structure Mem where
  page_free_list : List Nat
  pgtables : List (Nat × Nat)
  pte : Nat → Nat → Option (Nat × Nat)
  next_env_id : Nat

/-- Modelled from the spec: `allocate-zeroed-frame` of the frame allocator
(`page_alloc`, defined in the memory module): hands out a free frame, or fails
with the memory-exhaustion error when none is left. -/
def ref_page_alloc (m : Mem) : Int × Nat × Mem :=
  match m.page_free_list with
  | [] => (-4, 0, m)
  | p :: rest => (0, p, { m with page_free_list := rest })

/-- Modelled from the spec: `release-frame` of the frame allocator
(`page_free`). -/
def ref_page_free (m : Mem) (pp : Nat) : Mem :=
  { m with page_free_list := pp :: m.page_free_list }

/-- Modelled from the spec: `install-mapping` of the page-table layer
(`page_insert`): maps the page containing `va` to frame `pp` with the
requested permission and the valid bit, replacing any previous mapping; when
the directory has no page table for `va` yet, one frame is taken from the
allocator for it, and the call fails with the memory-exhaustion error if none
is left. -/
def ref_page_insert (m : Mem) (pgdir pp va perm : Nat) : Int × Mem :=
  let install (m : Mem) : Mem :=
    { m with pte := fun d v =>
        if d = pgdir ∧ v = va / 4096 then some (pp, perm ||| 512) else m.pte d v }
  if (pgdir, va / 4194304) ∈ m.pgtables then (0, install m)
  else
    match m.page_free_list with
    | [] => (-4, m)
    | _ :: rest =>
      (0, install { m with page_free_list := rest
                           pgtables := (pgdir, va / 4194304) :: m.pgtables })

/-- Modelled from the spec: `lookup-mapping-and-entry` of the page-table layer
(`page_lookup`): the frame and entry mapped at the page containing `va`. -/
def ref_page_lookup (m : Mem) (pgdir va : Nat) : Option (Nat × Nat) :=
  m.pte pgdir (va / 4096)

/-- Modelled from the spec: `remove-mapping` of the page-table layer
(`page_remove`): drops the mapping of the page containing `va`, if any. -/
def ref_page_remove (m : Mem) (pgdir va : Nat) : Mem :=
  match m.pte pgdir (va / 4096) with
  | none => m
  | some _ =>
    { m with pte := fun d v => if d = pgdir ∧ v = va / 4096 then none else m.pte d v }

/-- Modelled from the spec: `translate-id(id, require-authority)` of the
environment substrate (`envid2env`): the slot is decoded from the identifier;
it must be occupied by an environment with that identifier, and, when
authority is required, that environment must be the caller or a direct child
of the caller. -/
def ref_envid2env (envs : Nat → Env) (curenv envid checkperm : Nat) : Int × Nat :=
  let e := envid % 1024
  if (envs e).env_status = 0 ∨ (envs e).env_id ≠ envid then (-2, 0)
  else if checkperm ≠ 0 ∧ e ≠ curenv ∧ (envs e).env_parent_id ≠ (envs curenv).env_id then
    (-2, 0)
  else (0, e)

/-- Modelled from the spec: `create-slot` of the environment substrate
(`env_alloc`): borrows the first free slot, gives it a fresh identifier made of
a generation and the slot index, records the parent and a new address-space
handle; fails when no slot is free. -/
def ref_env_alloc (k : Kernel Mem) (parent_id : Nat) : Int × Nat × Kernel Mem :=
  match (List.range 1024).find? (fun j => (k.envs j).env_status = 0) with
  | none => (-5, 0, k)
  | some j =>
    let gen := k.mem.next_env_id + 1
    (0, j,
      { (k.setEnv j
          { k.envs j with
            env_id := gen * 2048 + j
            env_parent_id := parent_id
            env_status := 1
            env_pgdir := gen * 2048 + j }) with
        mem := { k.mem with next_env_id := gen } })

/-- Modelled from the spec: destruction in the environment substrate
(`env_destroy`): releases the mappings of the environment and returns its slot
to the free state. -/
def ref_env_destroy (k : Kernel Mem) (e : Nat) : Kernel Mem :=
  { (k.setEnv e { k.envs e with env_status := 0 }) with
    mem := { k.mem with
      pte := fun d v => if d = (k.envs e).env_pgdir then none else k.mem.pte d v } }

/-- Modelled from the spec: `dispatch(env)` of the environment substrate
(`env_run`): the context of the environment that was running is saved from
the time stack, and `e` becomes the current environment. -/
def ref_env_run (k : Kernel Mem) (e : Nat) : Kernel Mem :=
  { (k.setEnv k.curenv
      { k.envs k.curenv with
        env_tf := { k.timestack_tf with pc := k.timestack_tf.cp0_epc } }) with
    curenv := e }

/-- The reference collaborators, with the constants of the MIPS teaching
kernel (4 KiB pages, 1024 environment slots, user space below `0x7f400000`).
Page contents are not represented, so `bcopy` leaves the state as it is. -/
def mos : Collab Mem where
  BY2PG := 4096
  UTOP := 0x7f400000
  USTACKTOP := 0x7f400000 - 2 * 4096
  PTE_V := 0x0200
  PTE_R := 0x0400
  PTE_COW := 0x0001
  PTE_LIBRARY := 0x0004
  NENV := 1024
  ENV_FREE := 0
  ENV_RUNNABLE := 1
  ENV_NOT_RUNNABLE := 2
  E_BAD_ENV := 2
  E_INVAL := 3
  E_NO_MEM := 4
  E_NO_FREE_ENV := 5
  E_IPC_NOT_RECV := 6
  ROUNDDOWN := fun a n => a - a % n
  envid2env := ref_envid2env
  env_alloc := ref_env_alloc
  env_destroy := ref_env_destroy
  env_run := ref_env_run
  page_alloc := ref_page_alloc
  page_free := ref_page_free
  page_insert := ref_page_insert
  page_lookup := ref_page_lookup
  page_remove := ref_page_remove
  va2pa := fun m pgdir va =>
    match m.pte pgdir (va / 4096) with
    | none => 0
    | some (pp, _) => pp * 4096 + va % 4096
  KADDR := fun pa => pa + 0x80000000
  page2kva := fun pp => pp * 4096 + 0x80000000
  bcopy := fun m _ _ _ => m

/-- An all-zero trap frame. -/
def tf0 : Trapframe :=
  { regs := List.replicate 32 0, cp0_status := 0, hi := 0, lo := 0,
    cp0_badvaddr := 0, cp0_cause := 0, cp0_epc := 0, pc := 0 }

/-- A free slot of the environment table. -/
def envFree : Env :=
  { env_tf := tf0, env_id := 0, env_parent_id := 0, env_status := 0, env_pgdir := 0,
    env_ipc_value := 0, env_ipc_from := 0, env_ipc_recving := 0, env_ipc_dstva := 0,
    env_ipc_perm := 0, env_pgfault_handler := 0, env_xstacktop := 0 }

/-- Environment A: slot 0, identifier `0x800`, no parent, runnable, address
space handle 100. -/
def envA : Env :=
  { envFree with env_id := 2048, env_status := 1, env_pgdir := 100 }

/-- Environment B: slot 1, identifier `0x1001`, child of A, runnable, address
space handle 101. -/
def envB : Env :=
  { envFree with env_id := 4097, env_parent_id := 2048, env_status := 1, env_pgdir := 101 }

/-- A small machine: A (running) and B; frames 7, 8, 9 free; A maps the page
at `0x00400000` to frame 3 read-only (valid bit only), the page at
`0x00401000` to frame 4 writable, and the page at `UTOP` (the read-only
window a user sees at the top of user space) to frame 5; B maps nothing. -/
def k0 : Kernel Mem :=
  { envs := fun j => if j = 0 then envA else if j = 1 then envB else envFree
    curenv := 0
    sched_i := 0
    ksp_tf := tf0
    timestack_tf := tf0
    mem :=
      { page_free_list := [7, 8, 9]
        pgtables := [(100, 1), (100, 509)]
        pte := fun d v =>
          if d = 100 ∧ v = 0x400 then some (3, 0x200)
          else if d = 100 ∧ v = 0x401 then some (4, 0x600)
          else if d = 100 ∧ v = 0x7f400 then some (5, 0x200)
          else none
        next_env_id := 2 } }

/-! ## Contracts of the collaborators -/

/-- Identifier `envid`, resolved for the caller of state `k` with authority
flag `checkperm`, names slot `e`: `envid2env` does not fail and stores `e`. -/
abbrev Resolves (X : Collab M) (k : Kernel M) (envid checkperm e : Nat) : Prop :=
  ¬ (X.envid2env k.envs k.curenv envid checkperm).1 < 0 ∧
    (X.envid2env k.envs k.curenv envid checkperm).2 = e

/-- The error codes are positive numbers, so that their negations differ from
the success result 0. -/
abbrev ErrorsPositive (X : Collab M) : Prop :=
  0 < X.E_BAD_ENV ∧ 0 < X.E_INVAL ∧ 0 < X.E_NO_MEM ∧ 0 < X.E_NO_FREE_ENV ∧
    0 < X.E_IPC_NOT_RECV

/-- Contract of `page_insert`: a successful insert of frame `pp` at `va` with
a permission that includes the valid bit makes `page_lookup` find `pp` with
that permission at `va`. -/
def InsertInstalls (X : Collab M) : Prop :=
  ∀ m pgdir pp va perm, perm &&& X.PTE_V ≠ 0 →
    ¬ (X.page_insert m pgdir pp va perm).1 < 0 →
    X.page_lookup (X.page_insert m pgdir pp va perm).2 pgdir va = some (pp, perm)

/-- Contract of `page_insert`: a successful insert changes no mapping but the
one it installs: every address of every address space resolves as before, or
resolves to the entry just installed. -/
def InsertLocal (X : Collab M) : Prop :=
  ∀ m pgdir pp va perm pgdir' va', ¬ (X.page_insert m pgdir pp va perm).1 < 0 →
    X.page_lookup (X.page_insert m pgdir pp va perm).2 pgdir' va' =
        X.page_lookup m pgdir' va' ∨
      X.page_lookup (X.page_insert m pgdir pp va perm).2 pgdir' va' =
        X.page_lookup (X.page_insert m pgdir pp va perm).2 pgdir va

/-- Contract of `page_remove`: removing at an address at which nothing is
mapped leaves the memory state as it is. -/
def RemoveUnmapped (X : Collab M) : Prop :=
  ∀ m pgdir va, X.page_lookup m pgdir va = none → X.page_remove m pgdir va = m

/-- Contract of `page_remove`: after the removal nothing is mapped at the
address. -/
def RemoveClears (X : Collab M) : Prop :=
  ∀ m pgdir va, X.page_lookup (X.page_remove m pgdir va) pgdir va = none

/-- Contract of `env_run`: dispatching changes no field of any slot of the
environment table other than a saved trap frame. -/
def RunKeepsEnvs (X : Collab M) : Prop :=
  ∀ (k : Kernel M) (e j : Nat),
    { (X.env_run k e).envs j with env_tf := (k.envs j).env_tf } = k.envs j

/-- Contract of `envid2env` for one identifier: asked by the environment in
slot `a` without authority check, `envid` names slot `b` in every table in
which slot `b` carries that identifier and is blocked (`ENV_NOT_RUNNABLE`). -/
def NamesBlocked (X : Collab M) (a envid b : Nat) : Prop :=
  ∀ envs : Nat → Env, (envs b).env_id = envid →
    (envs b).env_status = X.ENV_NOT_RUNNABLE →
    ¬ (X.envid2env envs a envid 0).1 < 0 ∧ (X.envid2env envs a envid 0).2 = b

/-- One call `sys_ipc_can_send(envid, value, srcva, perm)` made by the
environment in slot `sender`. -/
structure SendCall where
  sender : Nat
  envid : Nat
  value : Nat
  srcva : Nat
  perm : Nat

/-- A sequence of `sys_ipc_can_send` calls, each made with its sender as the
current environment: the results in order and the final state. -/
def sends (X : Collab M) : List SendCall → Kernel M → List Int × Kernel M
  | [], k => ([], k)
  | c :: cs, k =>
    let r := sys_ipc_can_send X { k with curenv := c.sender } c.envid c.value c.srcva c.perm
    let rest := sends X cs r.2
    (r.1 :: rest.1, rest.2)

/-- The reference machine with B as the running environment. -/
def kB : Kernel Mem :=
  { k0 with curenv := 1 }

/-- The reference machine after B called `sys_ipc_recv(0)`: B is receptive,
not runnable, offers no destination page; A is running. -/
def kR : Kernel Mem :=
  k0.setEnv 1 { envB with env_ipc_recving := 1, env_status := 2, env_ipc_dstva := 0 }

/-- Contract of `page_insert`, for every permission: a successful insert of
frame `pp` at `va` makes `page_lookup` find `pp` there with the requested
permission and the valid bit. -/
def InsertInstallsValid (X : Collab M) : Prop :=
  ∀ m pgdir pp va perm, ¬ (X.page_insert m pgdir pp va perm).1 < 0 →
    X.page_lookup (X.page_insert m pgdir pp va perm).2 pgdir va
      = some (pp, perm ||| X.PTE_V)

/-- The reference machine after B called `sys_ipc_recv(0x00500000)`: B is
receptive, not runnable, and offers the page at `0x00500000`; A is running. -/
def kP : Kernel Mem :=
  k0.setEnv 1
    { envB with env_ipc_recving := 1, env_status := 2, env_ipc_dstva := 0x00500000 }

/-- Contract of `page_alloc`: a failed allocation changes no mapping. -/
def AllocFailKeeps (X : Collab M) : Prop :=
  ∀ m pgdir va, (X.page_alloc m).1 < 0 →
    X.page_lookup (X.page_alloc m).2.2 pgdir va = X.page_lookup m pgdir va

/-- Contract of `ROUNDDOWN` at the page size: the rounded address does not
exceed the address, and rounding a rounded address changes nothing. -/
def RoundsDown (X : Collab M) : Prop :=
  ∀ a, X.ROUNDDOWN a X.BY2PG ≤ a ∧
    X.ROUNDDOWN (X.ROUNDDOWN a X.BY2PG) X.BY2PG = X.ROUNDDOWN a X.BY2PG

/-- The reference machine with no free frame left. -/
def kE : Kernel Mem :=
  { k0 with mem := { k0.mem with page_free_list := [] } }

/-- Contract of `env_alloc`, for a caller that is itself not free: a
successful allocation leaves `curenv` and the caller's slot as they are, and
the slot it hands out was free (so it is not the caller's). -/
def AllocFresh (X : Collab M) : Prop :=
  ∀ (k : Kernel M) (parent_id : Nat), (k.envs k.curenv).env_status ≠ X.ENV_FREE →
    ¬ (X.env_alloc k parent_id).1 < 0 →
    (X.env_alloc k parent_id).2.2.curenv = k.curenv ∧
    (X.env_alloc k parent_id).2.1 ≠ k.curenv ∧
    (X.env_alloc k parent_id).2.2.envs k.curenv = k.envs k.curenv ∧
    (k.envs (X.env_alloc k parent_id).2.1).env_status = X.ENV_FREE

/-- The `env_alloc` call of `sys_env_alloc` in state `k`: its status, the
slot it hands out, and the state it leaves. -/
def sys_env_alloc_slot (X : Collab M) (k : Kernel M) : Int × Nat × Kernel M :=
  X.env_alloc (k.setEnv k.curenv { k.envs k.curenv with env_tf := k.ksp_tf })
    ((k.setEnv k.curenv { k.envs k.curenv with env_tf := k.ksp_tf }).envs
      (k.setEnv k.curenv { k.envs k.curenv with env_tf := k.ksp_tf }).curenv).env_id

/-- The `page_alloc` call of `sys_env_alloc` in state `k` (reached when the
slot allocation succeeded): its status, the frame, and the memory it leaves. -/
def sys_env_alloc_page (X : Collab M) (k : Kernel M) : Int × Nat × M :=
  X.page_alloc (sys_env_alloc_slot X k).2.2.mem

/-- The `page_insert` call of `sys_env_alloc` in state `k` (reached when slot
and frame were allocated): the frame, filled from the parent's stack page, is
inserted below `USTACKTOP` in the child's address space, writable. -/
def sys_env_alloc_insert (X : Collab M) (k : Kernel M) : Int × M :=
  X.page_insert
    (X.bcopy (sys_env_alloc_page X k).2.2
      (X.KADDR (X.va2pa (sys_env_alloc_page X k).2.2
        ((sys_env_alloc_slot X k).2.2.envs (sys_env_alloc_slot X k).2.2.curenv).env_pgdir
        (X.USTACKTOP - X.BY2PG)))
      (X.page2kva (sys_env_alloc_page X k).2.1) X.BY2PG)
    ((sys_env_alloc_slot X k).2.2.envs (sys_env_alloc_slot X k).2.1).env_pgdir
    (sys_env_alloc_page X k).2.1 (X.USTACKTOP - X.BY2PG) (X.PTE_R ||| X.PTE_V)

/-- A trap frame as saved at the entry of a syscall: the syscall number in
`regs[2]`, the address of the instruction after the syscall in `cp0_epc`. -/
def tfSys : Trapframe :=
  { tf0 with regs := (List.replicate 32 0).set 2 9527, cp0_epc := 0x00400120, pc := 0x00400100 }

/-- The reference machine at the entry of a syscall made by A. -/
def kS : Kernel Mem :=
  { k0 with ksp_tf := tfSys }

/-- The reference machine at the entry of a syscall made by A, with no free
frame left. -/
def kSE : Kernel Mem :=
  { kE with ksp_tf := tfSys }

/-- The reference machine at the entry of a syscall made by A, with every slot
of the environment table occupied. -/
def kFull : Kernel Mem :=
  { kS with envs := fun j => if j = 0 then envA else envB }

/-- Contract of `env_alloc`: whether it succeeds or fails, a slot that was not
free is not free afterwards. -/
def AllocKeepsLive (X : Collab M) : Prop :=
  ∀ (k : Kernel M) (parent_id j : Nat), (k.envs j).env_status ≠ X.ENV_FREE →
    ((X.env_alloc k parent_id).2.2.envs j).env_status ≠ X.ENV_FREE

/-- The calls of the syscall layer, with their arguments. -/
inductive Syscall where
  | putchar (c : Nat)
  | getenvid
  | yield
  | env_destroy (envid : Nat)
  | set_pgfault_handler (envid func xstacktop : Nat)
  | mem_alloc (envid va perm : Nat)
  | mem_map (srcid srcva dstid dstva perm : Nat)
  | mem_unmap (envid va : Nat)
  | env_alloc
  | set_env_status (envid status : Nat)
  | set_trapframe (envid : Nat)
  | panic
  | ipc_recv (dstva : Nat)
  | ipc_can_send (envid value srcva perm : Nat)

/-- One step of the syscall layer: the kernel state after the call made by the
current environment, or `none` when there is no next state (the system
halted in `sys_panic`, or the scheduler used up its probes).  `sys_putchar`
writes to the console only, `sys_getenvid` only reads, and
`sys_set_trapframe` has an empty body. -/
def step (X : Collab M) (fuel : Nat) (k : Kernel M) : Syscall → Option (Kernel M)
  | .putchar _ => some k
  | .getenvid => some k
  | .yield => sys_yield X fuel k
  | .env_destroy envid => some (sys_env_destroy X k envid).2
  | .set_pgfault_handler envid func xstacktop =>
    some (sys_set_pgfault_handler X k envid func xstacktop).2
  | .mem_alloc envid va perm => some (sys_mem_alloc X k envid va perm).2
  | .mem_map srcid srcva dstid dstva perm =>
    some (sys_mem_map X k srcid srcva dstid dstva perm).2
  | .mem_unmap envid va => some (sys_mem_unmap X k envid va).2
  | .env_alloc => some (sys_env_alloc X k).2
  | .set_env_status envid status => some (sys_set_env_status X k envid status).2
  | .set_trapframe _ => some k
  | .panic => none
  | .ipc_recv dstva => sys_ipc_recv X fuel k dstva
  | .ipc_can_send envid value srcva perm =>
    some (sys_ipc_can_send X k envid value srcva perm).2

/-- The calls that can set a status to `ENV_FREE`: `sys_env_destroy`, and
`sys_set_env_status` when the status passed is `ENV_FREE`. -/
def Syscall.frees (X : Collab M) : Syscall → Bool
  | .env_destroy _ => true
  | .set_env_status _ status => decide (status = X.ENV_FREE)
  | _ => false

/-- Contract of `env_run`: the counter `i` is a static variable of
`sched_yield`, out of reach of the dispatch. -/
def RunKeepsIndex (X : Collab M) : Prop :=
  ∀ (k : Kernel M) (e : Nat), (X.env_run k e).sched_i = k.sched_i

/-- The loop of `sched_yield` up to the call of `env_run`: the slot that is
about to be dispatched and the state in which `env_run` is called. -/
def sched_scan (X : Collab M) : Nat → Kernel M → Option (Nat × Kernel M)
  | 0, _ => none
  | fuel + 1, k =>
    if (k.envs k.sched_i).env_status = X.ENV_RUNNABLE then
      some (k.sched_i, { k with sched_i := (k.sched_i + 1) % X.NENV })
    else
      sched_scan X fuel { k with sched_i := (k.sched_i + 1) % X.NENV }

/-- So many invocations of `sched_yield` in a row, each entered in the state
the previous dispatch left: the slots dispatched, in order, and the final
state. -/
def sched_rounds (X : Collab M) (fuel : Nat) : Nat → Kernel M → Option (List Nat × Kernel M)
  | 0, k => some ([], k)
  | n + 1, k =>
    match sched_scan X fuel k with
    | none => none
    | some (j, K) =>
      match sched_rounds X fuel n (X.env_run K j) with
      | none => none
      | some (js, k') => some (j :: js, k')

/-- The slots of a table of `n` slots in circular order from index `i`:
`i, i+1, ..., n-1, 0, ..., i-1`. -/
def circular (n i : Nat) : List Nat :=
  (List.range n).map (fun t => (i + t) % n)

/-- The runnable slots of the table, in slot order. -/
def runnable_slots (X : Collab M) (k : Kernel M) : List Nat :=
  (List.range X.NENV).filter (fun j => decide ((k.envs j).env_status = X.ENV_RUNNABLE))

/-- The runnable slots of the table, in circular order from the remembered
index of the scheduler. -/
def runnable_from (X : Collab M) (k : Kernel M) : List Nat :=
  (circular X.NENV k.sched_i).filter
    (fun j => decide ((k.envs j).env_status = X.ENV_RUNNABLE))

/-- Environment C: slot 2, identifier `0x1802`, child of A, runnable, address
space handle 102. -/
def envC : Env :=
  { envFree with env_id := 6146, env_parent_id := 2048, env_status := 1, env_pgdir := 102 }

/-- A machine with A, B and C runnable in slots 0, 1, 2, in which slot 0 was
dispatched last: the remembered index is 1. -/
def k3 : Kernel Mem :=
  { k0 with
    envs := fun j => if j = 0 then envA else if j = 1 then envB else if j = 2 then envC
      else envFree
    sched_i := 1 }

/-- The machine `k3` after slot 1 has been dispatched and has blocked: the
remembered index is 2 and slot 1 is `ENV_NOT_RUNNABLE`. -/
def k3b : Kernel Mem :=
  ({ k3 with sched_i := 2 } : Kernel Mem).setEnv 1
    { ({ k3 with sched_i := 2 } : Kernel Mem).envs 1 with env_status := mos.ENV_NOT_RUNNABLE }

/-- The reference machine with B blocked in a receive, A runnable, and the
remembered index of the scheduler at slot 1. -/
def kR1 : Kernel Mem :=
  { kR with sched_i := 1 }

end Mos

namespace Mos

variable {M : Type}

/-! ## The reference collaborators meet their contracts -/

/-- Setting the valid bit in a permission that already has it changes
nothing. -/
theorem or_valid_of_and_ne (perm : Nat) (h : perm &&& 512 ≠ 0) : perm ||| 512 = perm := by
  have h512 : (512 : Nat) = 2 ^ 9 := by norm_num
  rw [h512] at h ⊢
  apply Nat.eq_of_testBit_eq
  intro i
  rw [Nat.testBit_or, Nat.testBit_two_pow]
  by_cases hi : 9 = i
  · subst hi
    have : perm.testBit 9 = true := by
      by_contra hc
      apply h
      apply Nat.eq_of_testBit_eq
      intro j
      rw [Nat.testBit_and, Nat.testBit_two_pow]
      by_cases hj : 9 = j
      · subst hj; simp [hc]
      · simp [hj]
    simp [this]
  · simp [hi]

/-- The reference `page_insert` installs what it is asked to. -/
theorem mos_insertInstalls : InsertInstalls mos := by
  intro m pgdir pp va perm hV hok
  have hp : perm ||| 512 = perm := or_valid_of_and_ne perm hV
  simp only [mos, ref_page_insert, ref_page_lookup] at hok ⊢
  split_ifs with h1
  · simp [hp]
  · split
    · rename_i hnil
      simp [h1, hnil] at hok
    · simp [hp]

/-- The reference `page_insert` touches one entry only. -/
theorem mos_insertLocal : InsertLocal mos := by
  intro m pgdir pp va perm pgdir' va' hok
  simp only [mos, ref_page_insert, ref_page_lookup] at hok ⊢
  by_cases hsame : pgdir' = pgdir ∧ va' / 4096 = va / 4096
  · right
    obtain ⟨hd, hv⟩ := hsame
    rw [hd, hv]
  · left
    split_ifs with h1
    · simp [hsame]
    · split
      · rfl
      · simp [hsame]

/-- The reference `page_remove` ignores an address with no mapping. -/
theorem mos_removeUnmapped : RemoveUnmapped mos := by
  intro m pgdir va h
  simp only [mos, ref_page_lookup] at h
  simp only [mos, ref_page_remove, h]

/-- The reference `page_remove` leaves no mapping at the address. -/
theorem mos_removeClears : RemoveClears mos := by
  intro m pgdir va
  simp only [mos, ref_page_remove, ref_page_lookup]
  split
  · assumption
  · simp

/-- The reference `env_run` writes a saved trap frame and nothing else in
the table. -/
theorem mos_runKeepsEnvs : RunKeepsEnvs mos := by
  intro k e j
  simp only [mos, ref_env_run, Kernel.setEnv]
  by_cases h : j = k.curenv
  · subst h
    simp
  · simp [h]

/-- On the reference machine the identifier of B names slot 1 for A. -/
theorem mos_namesBlocked_B : NamesBlocked mos 0 4097 1 := by
  intro envs h1 h2
  simp [mos, ref_envid2env, h1, h2] at h2 ⊢

/-! ## Address-space operations -/

/-- C1 (the code departs from its documentation): on the reference machine,
`sys_mem_alloc` called by A for itself at the page-aligned user address
`0x00402000` with `perm = PTE_V | PTE_COW` returns 0, and afterwards that
address is mapped to the freshly allocated frame 7 with the copy-on-write bit
set; the documented `-E_INVAL` is not returned. -/
theorem sys_mem_alloc_accepts_cow :
    0x201 &&& mos.PTE_COW ≠ 0 ∧ 0x201 &&& mos.PTE_V ≠ 0 ∧
    0x00402000 < mos.UTOP ∧ 0x00402000 % mos.BY2PG = 0 ∧
    (sys_mem_alloc mos k0 2048 0x00402000 0x201).1 = 0 ∧
    mos.page_lookup k0.mem 100 0x00402000 = none ∧
    mos.page_lookup (sys_mem_alloc mos k0 2048 0x00402000 0x201).2.mem 100 0x00402000
      = some (7, 0x201) ∧
    (sys_mem_alloc mos k0 2048 0x00402000 0x201).2.mem.page_free_list = [8, 9] := by
  decide

/-- C2: when `va` is at or above `UTOP` or is not a multiple of `BY2PG`,
`sys_mem_alloc` returns `-E_INVAL` and the whole kernel state, memory
subsystem included, is what it was, for every `envid` and `perm` and every
implementation of the collaborators (none of them is called); the same holds
for `N` calls in a row. -/
theorem sys_mem_alloc_bad_va (X : Collab M) (k : Kernel M) (envid va perm N : Nat)
    (h : va ≥ X.UTOP ∨ va % X.BY2PG ≠ 0) :
    sys_mem_alloc X k envid va perm = (-(X.E_INVAL : Int), k) ∧
    sys_mem_alloc_repeat X envid va perm N k =
      (List.replicate N (-(X.E_INVAL : Int)), k) := by
  have h1 : sys_mem_alloc X k envid va perm = (-(X.E_INVAL : Int), k) := by
    unfold sys_mem_alloc
    rw [if_pos h]
  refine ⟨h1, ?_⟩
  induction N with
  | zero => rfl
  | succ n ih =>
    unfold sys_mem_alloc_repeat
    simp only [h1, ih, List.replicate_succ]

/-- Witness of C2 on the reference machine: an unaligned address, three calls. -/
theorem sys_mem_alloc_bad_va_witness :
    (0x00400004 ≥ mos.UTOP ∨ 0x00400004 % mos.BY2PG ≠ 0) ∧
    (sys_mem_alloc mos k0 2048 0x00400004 0x200 = (-(mos.E_INVAL : Int), k0) ∧
     sys_mem_alloc_repeat mos 2048 0x00400004 0x200 3 k0 =
      (List.replicate 3 (-(mos.E_INVAL : Int)), k0)) :=
  ⟨by decide, sys_mem_alloc_bad_va mos k0 2048 0x00400004 0x200 3 (by decide)⟩

/-- C3: when both identifiers resolve, both addresses are below `UTOP`, `perm`
has `PTE_V` and `PTE_R`, and the entry found for `srcva` in the source address
space lacks `PTE_R`, `sys_mem_map` returns `-E_INVAL` and the kernel state
(the destination address space with it) is unchanged. -/
theorem sys_mem_map_no_write_escalation (X : Collab M) (k : Kernel M)
    (srcid srcva dstid dstva perm s d pp pte : Nat)
    (hs : Resolves X k srcid 1 s) (hd : Resolves X k dstid 1 d)
    (hsv : srcva < X.UTOP) (hdv : dstva < X.UTOP)
    (hV : perm &&& X.PTE_V ≠ 0) (hR : perm &&& X.PTE_R ≠ 0)
    (hsrc : X.page_lookup k.mem (k.envs s).env_pgdir (X.ROUNDDOWN srcva X.BY2PG)
      = some (pp, pte))
    (hpte : pte &&& X.PTE_R = 0) :
    sys_mem_map X k srcid srcva dstid dstva perm = (-(X.E_INVAL : Int), k) := by
  obtain ⟨hs1, hs2⟩ := hs
  obtain ⟨hd1, hd2⟩ := hd
  subst hs2
  unfold sys_mem_map
  simp only [if_neg hs1, if_neg hd1]
  rw [if_neg (by omega), if_neg hV, hsrc]
  simp only [if_pos (And.intro hR hpte)]

/-- Witness of C3 on the reference machine: A asks to map its read-only page
at `0x00400000` writable into B. -/
theorem sys_mem_map_no_write_escalation_witness :
    Resolves mos k0 2048 1 0 ∧ Resolves mos k0 4097 1 1 ∧
    0x00400000 < mos.UTOP ∧ 0x600 &&& mos.PTE_V ≠ 0 ∧ 0x600 &&& mos.PTE_R ≠ 0 ∧
    mos.page_lookup k0.mem (k0.envs 0).env_pgdir (mos.ROUNDDOWN 0x00400000 mos.BY2PG)
      = some (3, 0x200) ∧
    0x200 &&& mos.PTE_R = 0 ∧
    sys_mem_map mos k0 2048 0x00400000 4097 0x00400000 0x600 = (-(mos.E_INVAL : Int), k0) :=
  ⟨by decide, by decide, by decide, by decide, by decide, by decide, by decide,
    sys_mem_map_no_write_escalation mos k0 2048 0x00400000 4097 0x00400000 0x600 0 1 3 0x200
      (by decide) (by decide) (by decide) (by decide) (by decide) (by decide) (by decide)
      (by decide)⟩

/-- C4, counterexample: on the reference machine A maps its page at
`0x00400000`, whose entry carries the valid bit only, into B with
`perm = PTE_V | PTE_LIBRARY`; `sys_mem_map` returns 0 although the shareable
bit requested is not set in the source entry. -/
theorem sys_mem_map_shareable_not_checked :
    (sys_mem_map mos k0 2048 0x00400000 4097 0x00400000 0x204).1 = 0 ∧
    0x204 &&& mos.PTE_LIBRARY ≠ 0 ∧
    mos.page_lookup k0.mem (k0.envs (mos.envid2env k0.envs k0.curenv 2048 1).2).env_pgdir
      (mos.ROUNDDOWN 0x00400000 mos.BY2PG) = some (3, 0x200) ∧
    0x200 &&& mos.PTE_LIBRARY = 0 := by
  decide

/-- C4, amended: whenever `sys_mem_map` returns 0 and `perm` asks for the
writable bit `PTE_R`, the source address space has an entry at the page of
`srcva` and that entry has `PTE_R` set. -/
theorem sys_mem_map_success_writable (X : Collab M) (k : Kernel M)
    (srcid srcva dstid dstva perm : Nat) (hE : ErrorsPositive X)
    (h0 : (sys_mem_map X k srcid srcva dstid dstva perm).1 = 0)
    (hR : perm &&& X.PTE_R ≠ 0) :
    ∃ pp pte,
      X.page_lookup k.mem (k.envs (X.envid2env k.envs k.curenv srcid 1).2).env_pgdir
        (X.ROUNDDOWN srcva X.BY2PG) = some (pp, pte) ∧
      pte &&& X.PTE_R ≠ 0 := by
  obtain ⟨hE1, hE2, hE3, -, -⟩ := hE
  have n1 : (-(X.E_BAD_ENV : Int)) ≠ 0 := by omega
  have n2 : (-(X.E_INVAL : Int)) ≠ 0 := by omega
  have n3 : (-(X.E_NO_MEM : Int)) ≠ 0 := by omega
  unfold sys_mem_map at h0
  simp only [] at h0
  split_ifs at h0 with c1 c2 c3 c4
  · exact absurd h0 n1
  · exact absurd h0 n1
  · exact absurd h0 n2
  · exact absurd h0 n2
  · split at h0
    · exact absurd h0 n2
    · rename_i ppage pte hl
      split_ifs at h0 with c5 c6
      · exact absurd h0 n2
      · exact absurd h0 n3
      · refine ⟨ppage, pte, hl, ?_⟩
        intro hz
        exact c5 ⟨hR, hz⟩

/-- Witness of C4 (amended) on the reference machine: A maps its writable
page at `0x00401000` writable into B. -/
theorem sys_mem_map_success_writable_witness :
    ErrorsPositive mos ∧
    (sys_mem_map mos k0 2048 0x00401000 4097 0x00400000 0x600).1 = 0 ∧
    0x600 &&& mos.PTE_R ≠ 0 ∧
    ∃ pp pte,
      mos.page_lookup k0.mem (k0.envs (mos.envid2env k0.envs k0.curenv 2048 1).2).env_pgdir
        (mos.ROUNDDOWN 0x00401000 mos.BY2PG) = some (pp, pte) ∧
      pte &&& mos.PTE_R ≠ 0 :=
  ⟨by decide, by decide, by decide,
    sys_mem_map_success_writable mos k0 2048 0x00401000 4097 0x00400000 0x600
      (by decide) (by decide) (by decide)⟩

/-- C5: when both identifiers resolve (to slots `s` and `d`), both addresses
are below `UTOP`, `perm` has `PTE_V`, the source address space maps the page
of `srcva` to frame `p`, the write-escalation check passes and `page_insert`
succeeds, `sys_mem_map` returns 0, afterwards the destination address space
maps the page of `dstva` to `p` with permission `perm`, and the source
address space still maps the page of `srcva` to `p`. -/
theorem sys_mem_map_success (X : Collab M) (k : Kernel M)
    (srcid srcva dstid dstva perm s d p pte : Nat)
    (hI : InsertInstalls X) (hL : InsertLocal X)
    (hs : Resolves X k srcid 1 s) (hd : Resolves X k dstid 1 d)
    (hsv : srcva < X.UTOP) (hdv : dstva < X.UTOP) (hV : perm &&& X.PTE_V ≠ 0)
    (hsrc : X.page_lookup k.mem (k.envs s).env_pgdir (X.ROUNDDOWN srcva X.BY2PG)
      = some (p, pte))
    (hesc : ¬ (perm &&& X.PTE_R ≠ 0 ∧ pte &&& X.PTE_R = 0))
    (hins : ¬ (X.page_insert k.mem (k.envs d).env_pgdir p
      (X.ROUNDDOWN dstva X.BY2PG) perm).1 < 0) :
    (sys_mem_map X k srcid srcva dstid dstva perm).1 = 0 ∧
    X.page_lookup (sys_mem_map X k srcid srcva dstid dstva perm).2.mem
      (k.envs d).env_pgdir (X.ROUNDDOWN dstva X.BY2PG) = some (p, perm) ∧
    ∃ pte', X.page_lookup (sys_mem_map X k srcid srcva dstid dstva perm).2.mem
      (k.envs s).env_pgdir (X.ROUNDDOWN srcva X.BY2PG) = some (p, pte') := by
  obtain ⟨hs1, hs2⟩ := hs
  obtain ⟨hd1, hd2⟩ := hd
  subst hs2
  subst hd2
  have hdst := hI _ _ _ _ _ hV hins
  have e : sys_mem_map X k srcid srcva dstid dstva perm =
      (0, { k with mem := (X.page_insert k.mem
        (k.envs (X.envid2env k.envs k.curenv dstid 1).2).env_pgdir p
        (X.ROUNDDOWN dstva X.BY2PG) perm).2 }) := by
    unfold sys_mem_map
    simp only [if_neg hs1, if_neg hd1]
    rw [if_neg (by omega), if_neg hV, hsrc]
    simp only [if_neg hesc, if_neg hins]
  rw [e]
  refine ⟨rfl, hdst, ?_⟩
  rcases hL k.mem _ p (X.ROUNDDOWN dstva X.BY2PG) perm
      (k.envs (X.envid2env k.envs k.curenv srcid 1).2).env_pgdir
      (X.ROUNDDOWN srcva X.BY2PG) hins with h | h
  · exact ⟨pte, by rw [h, hsrc]⟩
  · exact ⟨perm, by rw [h, hdst]⟩

/-- Witness of C5 on the reference machine: A maps its writable page at
`0x00401000` (frame 4) into B at `0x00400000`, writable. -/
theorem sys_mem_map_success_witness :
    Resolves mos k0 2048 1 0 ∧ Resolves mos k0 4097 1 1 ∧
    0x00401000 < mos.UTOP ∧ 0x00400000 < mos.UTOP ∧ 0x600 &&& mos.PTE_V ≠ 0 ∧
    mos.page_lookup k0.mem (k0.envs 0).env_pgdir (mos.ROUNDDOWN 0x00401000 mos.BY2PG)
      = some (4, 0x600) ∧
    ¬ (0x600 &&& mos.PTE_R ≠ 0 ∧ 0x600 &&& mos.PTE_R = 0) ∧
    ¬ (mos.page_insert k0.mem (k0.envs 1).env_pgdir 4
      (mos.ROUNDDOWN 0x00400000 mos.BY2PG) 0x600).1 < 0 ∧
    ((sys_mem_map mos k0 2048 0x00401000 4097 0x00400000 0x600).1 = 0 ∧
     mos.page_lookup (sys_mem_map mos k0 2048 0x00401000 4097 0x00400000 0x600).2.mem
       (k0.envs 1).env_pgdir (mos.ROUNDDOWN 0x00400000 mos.BY2PG) = some (4, 0x600) ∧
     ∃ pte', mos.page_lookup (sys_mem_map mos k0 2048 0x00401000 4097 0x00400000 0x600).2.mem
       (k0.envs 0).env_pgdir (mos.ROUNDDOWN 0x00401000 mos.BY2PG) = some (4, pte')) :=
  ⟨by decide, by decide, by decide, by decide, by decide, by decide, by decide, by decide,
    sys_mem_map_success mos k0 2048 0x00401000 4097 0x00400000 0x600 0 1 4 0x600
      mos_insertInstalls mos_insertLocal
      (by decide) (by decide) (by decide) (by decide) (by decide) (by decide) (by decide)
      (by decide)⟩

/-- C6 (off by one in the bound check): on the reference machine,
`sys_mem_unmap` called by A for itself with `va = UTOP`, which is page-aligned
and not below `UTOP`, returns 0, not `-E_INVAL`, and the mapping A had at
`UTOP` is gone. -/
theorem sys_mem_unmap_accepts_utop :
    mos.UTOP ≥ mos.UTOP ∧ mos.UTOP % mos.BY2PG = 0 ∧
    (sys_mem_unmap mos k0 2048 mos.UTOP).1 = 0 ∧
    mos.page_lookup k0.mem 100 mos.UTOP = some (5, 0x200) ∧
    mos.page_lookup (sys_mem_unmap mos k0 2048 mos.UTOP).2.mem 100 mos.UTOP = none := by
  decide

/-- C7: for an identifier that resolves (to slot `e`) and a page-aligned `va`
below `UTOP`, `sys_mem_unmap` returns 0; if nothing is mapped at `va` the
state is unchanged; a second call right after the first returns the same
result and the same state as the first call alone; and afterwards nothing is
mapped at `va` in the address space of `e`. -/
theorem sys_mem_unmap_idempotent (X : Collab M) (k : Kernel M) (envid va e : Nat)
    (hU : RemoveUnmapped X) (hC : RemoveClears X)
    (he : Resolves X k envid 1 e) (hva : va < X.UTOP) (hal : va % X.BY2PG = 0) :
    (sys_mem_unmap X k envid va).1 = 0 ∧
    (X.page_lookup k.mem (k.envs e).env_pgdir va = none →
      (sys_mem_unmap X k envid va).2 = k) ∧
    sys_mem_unmap X (sys_mem_unmap X k envid va).2 envid va = sys_mem_unmap X k envid va ∧
    X.page_lookup (sys_mem_unmap X k envid va).2.mem (k.envs e).env_pgdir va = none := by
  obtain ⟨he1, he2⟩ := he
  subst he2
  have hg : ¬ (va > X.UTOP ∨ va % X.BY2PG ≠ 0) := by omega
  have e1 : ∀ k' : Kernel M, k'.envs = k.envs → k'.curenv = k.curenv →
      sys_mem_unmap X k' envid va =
        (0, { k' with mem := (X.page_remove k'.mem
          (k.envs (X.envid2env k.envs k.curenv envid 1).2).env_pgdir va) }) := by
    intro k' h1 h2
    unfold sys_mem_unmap
    rw [if_neg hg]
    simp only [h1, h2, if_neg he1]
  rw [e1 k rfl rfl]
  refine ⟨rfl, ?_, ?_, hC _ _ _⟩
  · intro hn
    simp only [hU _ _ _ hn]
  · have e2 := e1 { k with mem := (X.page_remove k.mem
      (k.envs (X.envid2env k.envs k.curenv envid 1).2).env_pgdir va) } rfl rfl
    refine e2.trans ?_
    simp only [hU _ _ _ (hC _ _ _)]

/-- Witness of C7 on the reference machine: A unmaps its page at
`0x00400000`. -/
theorem sys_mem_unmap_idempotent_witness :
    Resolves mos k0 2048 1 0 ∧ 0x00400000 < mos.UTOP ∧ 0x00400000 % mos.BY2PG = 0 ∧
    ((sys_mem_unmap mos k0 2048 0x00400000).1 = 0 ∧
     (mos.page_lookup k0.mem (k0.envs 0).env_pgdir 0x00400000 = none →
       (sys_mem_unmap mos k0 2048 0x00400000).2 = k0) ∧
     sys_mem_unmap mos (sys_mem_unmap mos k0 2048 0x00400000).2 2048 0x00400000
       = sys_mem_unmap mos k0 2048 0x00400000 ∧
     mos.page_lookup (sys_mem_unmap mos k0 2048 0x00400000).2.mem
       (k0.envs 0).env_pgdir 0x00400000 = none) :=
  ⟨by decide, by decide, by decide,
    sys_mem_unmap_idempotent mos k0 2048 0x00400000 0
      mos_removeUnmapped mos_removeClears (by decide) (by decide) (by decide)⟩

/-! ## Scheduler -/

/-- From a position `i` in the table, any slot `a` is reached in fewer than
`n` circular steps. -/
theorem circular_distance (n i a : Nat) (hi : i < n) (ha : a < n) :
    ∃ d, d < n ∧ (i + d) % n = a := by
  by_cases h : i ≤ a
  · refine ⟨a - i, by omega, ?_⟩
    rw [Nat.add_sub_cancel' h]
    exact Nat.mod_eq_of_lt ha
  · refine ⟨a + n - i, by omega, ?_⟩
    have e : i + (a + n - i) = a + n := by omega
    rw [e, Nat.add_mod_right]
    exact Nat.mod_eq_of_lt ha

/-- If the slot `d` circular steps after the remembered index is runnable,
`sched_yield` dispatches a runnable slot within `d + 1` probes. -/
theorem sched_yield_finds (X : Collab M) (d : Nat) :
    ∀ (k : Kernel M) (fuel : Nat), k.sched_i < X.NENV → d < fuel →
      (k.envs ((k.sched_i + d) % X.NENV)).env_status = X.ENV_RUNNABLE →
      ∃ j, j < X.NENV ∧ (k.envs j).env_status = X.ENV_RUNNABLE ∧
        sched_yield X fuel k =
          some (X.env_run { k with sched_i := (j + 1) % X.NENV } j) := by
  induction d with
  | zero =>
    intro k fuel hi hf hr
    obtain ⟨f, rfl⟩ : ∃ f, fuel = f + 1 := ⟨fuel - 1, by omega⟩
    rw [Nat.add_zero, Nat.mod_eq_of_lt hi] at hr
    exact ⟨k.sched_i, hi, hr, by unfold sched_yield; rw [if_pos hr]⟩
  | succ d ih =>
    intro k fuel hi hf hr
    obtain ⟨f, rfl⟩ : ∃ f, fuel = f + 1 := ⟨fuel - 1, by omega⟩
    by_cases hc : (k.envs k.sched_i).env_status = X.ENV_RUNNABLE
    · exact ⟨k.sched_i, hi, hc, by unfold sched_yield; rw [if_pos hc]⟩
    · have hN : 0 < X.NENV := by omega
      have hr' : (k.envs (((k.sched_i + 1) % X.NENV + d) % X.NENV)).env_status
          = X.ENV_RUNNABLE := by
        rw [Nat.mod_add_mod]
        have e : k.sched_i + 1 + d = k.sched_i + (d + 1) := by omega
        rw [e]
        exact hr
      obtain ⟨j, hj, hjr, hres⟩ :=
        ih { k with sched_i := (k.sched_i + 1) % X.NENV } f (Nat.mod_lt _ hN) (by omega) hr'
      refine ⟨j, hj, hjr, ?_⟩
      unfold sched_yield
      rw [if_neg hc]
      exact hres

/-! ## IPC rendezvous -/

/-- Under the contract of `env_run`, a dispatch keeps the identifier, the
status and the IPC fields of every slot. -/
theorem run_keeps_fields (X : Collab M) (hK : RunKeepsEnvs X) (k : Kernel M) (e j : Nat) :
    ((X.env_run k e).envs j).env_id = (k.envs j).env_id ∧
    ((X.env_run k e).envs j).env_status = (k.envs j).env_status ∧
    ((X.env_run k e).envs j).env_ipc_recving = (k.envs j).env_ipc_recving ∧
    ((X.env_run k e).envs j).env_ipc_dstva = (k.envs j).env_ipc_dstva := by
  have h := hK k e j
  have h1 := congrArg Env.env_id h
  have h2 := congrArg Env.env_status h
  have h3 := congrArg Env.env_ipc_recving h
  have h4 := congrArg Env.env_ipc_dstva h
  exact ⟨h1, h2, h3, h4⟩

/-- With an acceptable `dstva` and a runnable environment `a` other than the
caller in the table, `sys_ipc_recv` ends in a dispatch within `NENV` probes;
the dispatch starts from a state whose table is the caller's table with the
three stores of `sys_ipc_recv` made. -/
theorem sys_ipc_recv_dispatches (X : Collab M) (k : Kernel M) (dstva a : Nat)
    (hg : ¬ (dstva > X.UTOP ∨ dstva % X.BY2PG ≠ 0))
    (hab : a ≠ k.curenv) (ha : a < X.NENV) (hi : k.sched_i < X.NENV)
    (hrun : (k.envs a).env_status = X.ENV_RUNNABLE) :
    ∃ (K : Kernel M) (j : Nat), sys_ipc_recv X X.NENV k dstva = some (X.env_run K j) ∧
      K.envs = (k.setEnv k.curenv
        { k.envs k.curenv with
          env_ipc_recving := 1
          env_status := X.ENV_NOT_RUNNABLE
          env_ipc_dstva := dstva }).envs := by
  obtain ⟨d, hd, hda⟩ := circular_distance X.NENV k.sched_i a hi ha
  obtain ⟨j, -, -, hres⟩ := sched_yield_finds X d
    { (k.setEnv k.curenv
        { k.envs k.curenv with
          env_ipc_recving := 1
          env_status := X.ENV_NOT_RUNNABLE
          env_ipc_dstva := dstva }) with timestack_tf := k.ksp_tf }
    X.NENV hi hd
    (by
      show (((k.setEnv k.curenv _).envs ((k.sched_i + d) % X.NENV))).env_status = _
      rw [hda]
      simp only [Kernel.setEnv, if_neg hab]
      exact hrun)
  refine ⟨?K, j, ?h1, ?h2⟩
  case h1 =>
    unfold sys_ipc_recv sys_yield
    rw [if_neg hg]
    exact hres
  case h2 => rfl

/-- C8: let B (slot `b`) be running and A (slot `a`, distinct, runnable, in
the table) be another environment.  `sys_ipc_recv(0)` by B ends in a dispatch
(within `NENV` probes of the scheduler); in the state it leaves, B is
receptive and `ENV_NOT_RUNNABLE`; and `sys_ipc_can_send(id of B, v, 0, 0)`
made by A in that state returns 0 and leaves B with `env_ipc_value = v`,
`env_ipc_from` the identifier of A, `env_ipc_recving = 0`, `env_ipc_perm = 0`
and status `ENV_RUNNABLE`. -/
theorem ipc_value_handshake (X : Collab M) (k : Kernel M) (a b v : Nat)
    (hK : RunKeepsEnvs X) (hN : NamesBlocked X a (k.envs b).env_id b)
    (hab : a ≠ b) (hcur : k.curenv = b) (ha : a < X.NENV) (hi : k.sched_i < X.NENV)
    (hrun : (k.envs a).env_status = X.ENV_RUNNABLE) (hU : 0 < X.UTOP) :
    ∃ k1, sys_ipc_recv X X.NENV k 0 = some k1 ∧
      (k1.envs b).env_ipc_recving = 1 ∧
      (k1.envs b).env_status = X.ENV_NOT_RUNNABLE ∧
      (sys_ipc_can_send X { k1 with curenv := a } (k.envs b).env_id v 0 0).1 = 0 ∧
      ((sys_ipc_can_send X { k1 with curenv := a } (k.envs b).env_id v 0 0).2.envs b).env_ipc_value
        = v ∧
      ((sys_ipc_can_send X { k1 with curenv := a } (k.envs b).env_id v 0 0).2.envs b).env_ipc_from
        = (k.envs a).env_id ∧
      ((sys_ipc_can_send X { k1 with curenv := a } (k.envs b).env_id v 0 0).2.envs b).env_ipc_recving
        = 0 ∧
      ((sys_ipc_can_send X { k1 with curenv := a } (k.envs b).env_id v 0 0).2.envs b).env_ipc_perm
        = 0 ∧
      ((sys_ipc_can_send X { k1 with curenv := a } (k.envs b).env_id v 0 0).2.envs b).env_status
        = X.ENV_RUNNABLE := by
  subst hcur
  have hg : ¬ (0 > X.UTOP ∨ 0 % X.BY2PG ≠ 0) := by
    rw [Nat.zero_mod]; omega
  obtain ⟨K, j, hrecv, hKe⟩ := sys_ipc_recv_dispatches X k 0 a hg hab ha hi hrun
  obtain ⟨f1, f2, f3, f4⟩ := run_keeps_fields X hK K j k.curenv
  obtain ⟨g1, -, -, -⟩ := run_keeps_fields X hK K j a
  rw [hKe] at f1 f2 f3 f4 g1
  simp only [Kernel.setEnv, if_true, eq_self_iff_true, if_neg hab] at f1 f2 f3 f4 g1
  obtain ⟨r1, r2⟩ := hN _ f1 f2
  refine ⟨X.env_run K j, hrecv, f3, f2, ?_⟩
  unfold sys_ipc_can_send
  simp only [if_neg r1, r2, f3, f4, g1, ipc_deliver, Kernel.setEnv]
  have hU' : X.UTOP ≠ 0 := by omega
  simp [hU']

/-- Witness of C8 on the reference machine: B receives, A sends 42. -/
theorem ipc_value_handshake_witness :
    (0 : Nat) ≠ 1 ∧ kB.curenv = 1 ∧ 0 < mos.NENV ∧ kB.sched_i < mos.NENV ∧
    (kB.envs 0).env_status = mos.ENV_RUNNABLE ∧ 0 < mos.UTOP ∧
    ∃ k1, sys_ipc_recv mos mos.NENV kB 0 = some k1 ∧
      (k1.envs 1).env_ipc_recving = 1 ∧
      (k1.envs 1).env_status = mos.ENV_NOT_RUNNABLE ∧
      (sys_ipc_can_send mos { k1 with curenv := 0 } (kB.envs 1).env_id 42 0 0).1 = 0 ∧
      ((sys_ipc_can_send mos { k1 with curenv := 0 } (kB.envs 1).env_id 42 0 0).2.envs 1).env_ipc_value
        = 42 ∧
      ((sys_ipc_can_send mos { k1 with curenv := 0 } (kB.envs 1).env_id 42 0 0).2.envs 1).env_ipc_from
        = (kB.envs 0).env_id ∧
      ((sys_ipc_can_send mos { k1 with curenv := 0 } (kB.envs 1).env_id 42 0 0).2.envs 1).env_ipc_recving
        = 0 ∧
      ((sys_ipc_can_send mos { k1 with curenv := 0 } (kB.envs 1).env_id 42 0 0).2.envs 1).env_ipc_perm
        = 0 ∧
      ((sys_ipc_can_send mos { k1 with curenv := 0 } (kB.envs 1).env_id 42 0 0).2.envs 1).env_status
        = mos.ENV_RUNNABLE :=
  ⟨by decide, by decide, by decide, by decide, by decide, by decide,
    ipc_value_handshake mos kB 0 1 42 mos_runKeepsEnvs mos_namesBlocked_B
      (by decide) (by decide) (by decide) (by decide) (by decide) (by decide)⟩

/-- A send to a target whose receptive flag is clear returns
`-E_IPC_NOT_RECV` and leaves the state as it is. -/
theorem sys_ipc_can_send_not_recving (X : Collab M) (k : Kernel M)
    (envid value srcva perm e : Nat) (he : Resolves X k envid 0 e)
    (hz : (k.envs e).env_ipc_recving = 0) :
    sys_ipc_can_send X k envid value srcva perm = (-(X.E_IPC_NOT_RECV : Int), k) := by
  obtain ⟨he1, he2⟩ := he
  subst he2
  unfold sys_ipc_can_send
  simp only [if_neg he1, if_pos hz]

/-- After a send that returned 0 the receptive flag of its target is clear. -/
theorem sys_ipc_can_send_clears_flag (X : Collab M) (k : Kernel M)
    (envid value srcva perm : Nat) (hE : ErrorsPositive X)
    (h0 : (sys_ipc_can_send X k envid value srcva perm).1 = 0) :
    ((sys_ipc_can_send X k envid value srcva perm).2.envs
      (X.envid2env k.envs k.curenv envid 0).2).env_ipc_recving = 0 := by
  obtain ⟨hE1, hE2, -, -, hE5⟩ := hE
  have n1 : (-(X.E_BAD_ENV : Int)) ≠ 0 := by omega
  have n2 : (-(X.E_INVAL : Int)) ≠ 0 := by omega
  have n5 : (-(X.E_IPC_NOT_RECV : Int)) ≠ 0 := by omega
  rcases hl : X.page_lookup k.mem (k.envs k.curenv).env_pgdir srcva with _ | ⟨p, pte⟩
  · unfold sys_ipc_can_send at h0 ⊢
    simp only [hl] at h0 ⊢
    split_ifs at h0 ⊢ with c1 c2 c3 c4
    · exact absurd h0 n1
    · exact absurd h0 n5
    · exact absurd h0 n2
    · exact absurd h0 n2
    · simp [ipc_deliver, Kernel.setEnv]
  · unfold sys_ipc_can_send at h0 ⊢
    simp only [hl] at h0 ⊢
    split_ifs at h0 ⊢ with c1 c2 c3 c4 c5
    · exact absurd h0 n1
    · exact absurd h0 n5
    · exact absurd h0 n2
    · exact absurd h0 (by omega)
    · simp [ipc_deliver, Kernel.setEnv]
    · simp [ipc_deliver, Kernel.setEnv]

/-- As long as the receptive flag of slot `e` is clear, a sequence of sends
that all name `e` is rejected call by call, and table and memory stay as they
are. -/
theorem sends_rejected (X : Collab M) (e : Nat) (cs : List SendCall) :
    ∀ k : Kernel M, (k.envs e).env_ipc_recving = 0 →
      (∀ c ∈ cs, Resolves X { k with curenv := c.sender } c.envid 0 e) →
      (sends X cs k).1 = List.replicate cs.length (-(X.E_IPC_NOT_RECV : Int)) ∧
      (sends X cs k).2.envs = k.envs ∧ (sends X cs k).2.mem = k.mem := by
  induction cs with
  | nil =>
    intro k _ _
    exact ⟨rfl, rfl, rfl⟩
  | cons c cs ih =>
    intro k hz hr
    have h1 := sys_ipc_can_send_not_recving X { k with curenv := c.sender }
      c.envid c.value c.srcva c.perm e (hr c (List.mem_cons_self _ _)) hz
    obtain ⟨i1, i2, i3⟩ := ih { k with curenv := c.sender } hz
      (fun c' hc' => hr c' (List.mem_cons_of_mem _ hc'))
    unfold sends
    simp only [h1, List.length_cons, List.replicate_succ]
    exact ⟨by rw [i1], i2, i3⟩

/-- C9: after a `sys_ipc_can_send` to a target (slot `e`) has returned 0, every
call in any sequence of further `sys_ipc_can_send` calls that name the same
target (whatever the sender, value, `srcva` and `perm`), with no
`sys_ipc_recv` in between, returns `-E_IPC_NOT_RECV`, and the environment
table (the value, sender, permission and status recorded on the target with
it) and the memory stay what the first send left. -/
theorem ipc_one_send_per_receive (X : Collab M) (k : Kernel M)
    (envid value srcva perm e : Nat) (cs : List SendCall)
    (hE : ErrorsPositive X)
    (he : (X.envid2env k.envs k.curenv envid 0).2 = e)
    (h0 : (sys_ipc_can_send X k envid value srcva perm).1 = 0)
    (hcs : ∀ c ∈ cs,
      Resolves X { (sys_ipc_can_send X k envid value srcva perm).2 with curenv := c.sender }
        c.envid 0 e) :
    (sends X cs (sys_ipc_can_send X k envid value srcva perm).2).1
      = List.replicate cs.length (-(X.E_IPC_NOT_RECV : Int)) ∧
    (sends X cs (sys_ipc_can_send X k envid value srcva perm).2).2.envs
      = (sys_ipc_can_send X k envid value srcva perm).2.envs ∧
    (sends X cs (sys_ipc_can_send X k envid value srcva perm).2).2.mem
      = (sys_ipc_can_send X k envid value srcva perm).2.mem := by
  have hz := sys_ipc_can_send_clears_flag X k envid value srcva perm hE h0
  rw [he] at hz
  exact sends_rejected X e cs _ hz hcs

/-- Witness of C9 on the reference machine: B is receptive; A sends 42; then A
sends 43 and B itself tries to send a page-carrying message to its own
identifier. -/
theorem ipc_one_send_per_receive_witness :
    ErrorsPositive mos ∧
    (mos.envid2env kR.envs kR.curenv 4097 0).2 = 1 ∧
    (sys_ipc_can_send mos kR 4097 42 0 0).1 = 0 ∧
    (sends mos [⟨0, 4097, 43, 0, 0⟩, ⟨1, 4097, 44, 0x00400000, 0x600⟩]
        (sys_ipc_can_send mos kR 4097 42 0 0).2).1
      = List.replicate 2 (-(mos.E_IPC_NOT_RECV : Int)) ∧
    (sends mos [⟨0, 4097, 43, 0, 0⟩, ⟨1, 4097, 44, 0x00400000, 0x600⟩]
        (sys_ipc_can_send mos kR 4097 42 0 0).2).2.envs
      = (sys_ipc_can_send mos kR 4097 42 0 0).2.envs ∧
    (sends mos [⟨0, 4097, 43, 0, 0⟩, ⟨1, 4097, 44, 0x00400000, 0x600⟩]
        (sys_ipc_can_send mos kR 4097 42 0 0).2).2.mem
      = (sys_ipc_can_send mos kR 4097 42 0 0).2.mem :=
  ⟨by decide, by decide, by decide,
    ipc_one_send_per_receive mos kR 4097 42 0 0 1
      [⟨0, 4097, 43, 0, 0⟩, ⟨1, 4097, 44, 0x00400000, 0x600⟩]
      (by decide) (by decide) (by decide) (by decide)⟩

/-- C10, counterexample: on the reference machine B is receptive with no
destination page (`env_ipc_dstva = 0`); A sends with `srcva = UTOP`; the call
returns `-E_INVAL` and B stays receptive: the message is not delivered although
one of the two addresses is zero. -/
theorem ipc_send_zero_dstva_rejected :
    Resolves mos kR 4097 0 1 ∧ (kR.envs 1).env_ipc_recving = 1 ∧
    (kR.envs 1).env_ipc_dstva = 0 ∧
    (sys_ipc_can_send mos kR 4097 42 mos.UTOP 0).1 = -(mos.E_INVAL : Int) ∧
    ((sys_ipc_can_send mos kR 4097 42 mos.UTOP 0).2.envs 1).env_ipc_recving = 1 ∧
    ((sys_ipc_can_send mos kR 4097 42 mos.UTOP 0).2.envs 1).env_status
      = mos.ENV_NOT_RUNNABLE := by
  decide

/-- C10, amended: when the target resolves (slot `e`) and is receptive, both
`srcva` and the target's `env_ipc_dstva` are below `UTOP`, and at least one
of the two is zero, `sys_ipc_can_send` returns 0, the memory subsystem is
untouched (no mapping is installed), every other slot of the table is
untouched, and the target has `env_ipc_perm = 0`, `env_ipc_from` the
identifier of the sender, `env_ipc_value = value`, `env_ipc_recving = 0` and
status `ENV_RUNNABLE`. -/
theorem ipc_send_without_page (X : Collab M) (k : Kernel M)
    (envid value srcva perm e : Nat)
    (he : Resolves X k envid 0 e) (hrcv : (k.envs e).env_ipc_recving ≠ 0)
    (hd : (k.envs e).env_ipc_dstva < X.UTOP) (hs : srcva < X.UTOP)
    (hz : srcva = 0 ∨ (k.envs e).env_ipc_dstva = 0) :
    (sys_ipc_can_send X k envid value srcva perm).1 = 0 ∧
    (sys_ipc_can_send X k envid value srcva perm).2.mem = k.mem ∧
    (∀ j, j ≠ e → (sys_ipc_can_send X k envid value srcva perm).2.envs j = k.envs j) ∧
    ((sys_ipc_can_send X k envid value srcva perm).2.envs e).env_ipc_perm = 0 ∧
    ((sys_ipc_can_send X k envid value srcva perm).2.envs e).env_ipc_from
      = (k.envs k.curenv).env_id ∧
    ((sys_ipc_can_send X k envid value srcva perm).2.envs e).env_ipc_value = value ∧
    ((sys_ipc_can_send X k envid value srcva perm).2.envs e).env_ipc_recving = 0 ∧
    ((sys_ipc_can_send X k envid value srcva perm).2.envs e).env_status
      = X.ENV_RUNNABLE := by
  obtain ⟨he1, he2⟩ := he
  subst he2
  have hpage : ¬ (srcva ≠ 0 ∧
      (k.envs (X.envid2env k.envs k.curenv envid 0).2).env_ipc_dstva ≠ 0) := by
    intro hc
    rcases hz with h | h
    · exact hc.1 h
    · exact hc.2 h
  have e1 : sys_ipc_can_send X k envid value srcva perm =
      (0, ipc_deliver X k (X.envid2env k.envs k.curenv envid 0).2 value 0) := by
    unfold sys_ipc_can_send
    simp only [if_neg he1, if_neg hrcv]
    rw [if_neg (by omega), if_neg hpage]
  rw [e1]
  refine ⟨rfl, rfl, ?_, ?_⟩
  · intro j hj
    simp only [ipc_deliver, Kernel.setEnv, if_neg hj]
  · simp [ipc_deliver, Kernel.setEnv]

/-- Witness of C10 (amended) on the reference machine: B is receptive with no
destination page and A offers its page at `0x00401000`. -/
theorem ipc_send_without_page_witness :
    Resolves mos kR 4097 0 1 ∧ (kR.envs 1).env_ipc_recving ≠ 0 ∧
    (kR.envs 1).env_ipc_dstva < mos.UTOP ∧ 0x00401000 < mos.UTOP ∧
    ((0x00401000 : Nat) = 0 ∨ (kR.envs 1).env_ipc_dstva = 0) ∧
    ((sys_ipc_can_send mos kR 4097 42 0x00401000 0x600).1 = 0 ∧
     (sys_ipc_can_send mos kR 4097 42 0x00401000 0x600).2.mem = kR.mem ∧
     (∀ j, j ≠ 1 → (sys_ipc_can_send mos kR 4097 42 0x00401000 0x600).2.envs j = kR.envs j) ∧
     ((sys_ipc_can_send mos kR 4097 42 0x00401000 0x600).2.envs 1).env_ipc_perm = 0 ∧
     ((sys_ipc_can_send mos kR 4097 42 0x00401000 0x600).2.envs 1).env_ipc_from
       = (kR.envs kR.curenv).env_id ∧
     ((sys_ipc_can_send mos kR 4097 42 0x00401000 0x600).2.envs 1).env_ipc_value = 42 ∧
     ((sys_ipc_can_send mos kR 4097 42 0x00401000 0x600).2.envs 1).env_ipc_recving = 0 ∧
     ((sys_ipc_can_send mos kR 4097 42 0x00401000 0x600).2.envs 1).env_status
       = mos.ENV_RUNNABLE) :=
  ⟨by decide, by decide, by decide, by decide, by decide,
    ipc_send_without_page mos kR 4097 42 0x00401000 0x600 1
      (by decide) (by decide) (by decide) (by decide) (by decide)⟩

/-- The reference `page_insert` installs the requested permission with the
valid bit, whatever the permission. -/
theorem mos_insertInstallsValid : InsertInstallsValid mos := by
  intro m pgdir pp va perm hok
  simp only [mos, ref_page_insert, ref_page_lookup] at hok ⊢
  split_ifs with h1
  · simp
  · split
    · rename_i hnil
      simp [h1, hnil] at hok
    · simp

/-- C11, counterexample: on the reference machine B is receptive at
`0x00500000` and A sends its page at `0x00401000` (frame 4) with
`perm = PTE_R`, which lacks the valid bit.  Every condition of the claim
holds and the call returns 0, but B's address space maps `0x00500000` to
frame 4 with the entry `PTE_R | PTE_V`, not with `perm`, while
`env_ipc_perm` is `perm`. -/
theorem ipc_send_page_gets_valid_bit :
    Resolves mos kP 4097 0 1 ∧ (kP.envs 1).env_ipc_recving ≠ 0 ∧
    (0x00401000 : Nat) ≠ 0 ∧ (kP.envs 1).env_ipc_dstva ≠ 0 ∧
    0x00401000 < mos.UTOP ∧ (kP.envs 1).env_ipc_dstva < mos.UTOP ∧
    mos.page_lookup kP.mem (kP.envs kP.curenv).env_pgdir 0x00401000 = some (4, 0x600) ∧
    ¬ (mos.page_insert kP.mem (kP.envs 1).env_pgdir 4 (kP.envs 1).env_ipc_dstva 0x400).1 < 0 ∧
    (sys_ipc_can_send mos kP 4097 42 0x00401000 0x400).1 = 0 ∧
    mos.page_lookup (sys_ipc_can_send mos kP 4097 42 0x00401000 0x400).2.mem
      (kP.envs 1).env_pgdir (kP.envs 1).env_ipc_dstva = some (4, 0x600) ∧
    mos.page_lookup (sys_ipc_can_send mos kP 4097 42 0x00401000 0x400).2.mem
      (kP.envs 1).env_pgdir (kP.envs 1).env_ipc_dstva ≠ some (4, 0x400) ∧
    ((sys_ipc_can_send mos kP 4097 42 0x00401000 0x400).2.envs 1).env_ipc_perm = 0x400 := by
  decide

/-- C11, amended: let the target resolve (slot `e`) and be receptive, and let
`srcva` and the target's `env_ipc_dstva` both be non-zero and below `UTOP`.
If the caller's address space maps `srcva` to frame `p` and `page_insert`
succeeds, then, for every `perm`, `sys_ipc_can_send` returns 0, the target's
`env_ipc_perm` is `perm`, the memory is what the call
`page_insert(target's directory, p, env_ipc_dstva, perm)` left, and so (by
the contract of `page_insert`) the target's address space maps
`env_ipc_dstva` to `p` with permission `perm | PTE_V`, which is `perm` itself
when `perm` contains the valid bit.  If nothing is mapped at `srcva` in the
caller's address space, the call returns `-E_INVAL` (and changes nothing). -/
theorem ipc_send_with_page (X : Collab M) (k : Kernel M)
    (envid value srcva perm e : Nat)
    (he : Resolves X k envid 0 e) (hrcv : (k.envs e).env_ipc_recving ≠ 0)
    (hs0 : srcva ≠ 0) (hd0 : (k.envs e).env_ipc_dstva ≠ 0)
    (hs : srcva < X.UTOP) (hd : (k.envs e).env_ipc_dstva < X.UTOP) :
    (∀ p pte, X.page_lookup k.mem (k.envs k.curenv).env_pgdir srcva = some (p, pte) →
      ¬ (X.page_insert k.mem (k.envs e).env_pgdir p (k.envs e).env_ipc_dstva perm).1 < 0 →
      (sys_ipc_can_send X k envid value srcva perm).1 = 0 ∧
      ((sys_ipc_can_send X k envid value srcva perm).2.envs e).env_ipc_perm = perm ∧
      ((sys_ipc_can_send X k envid value srcva perm).2.envs e).env_pgdir
        = (k.envs e).env_pgdir ∧
      (sys_ipc_can_send X k envid value srcva perm).2.mem
        = (X.page_insert k.mem (k.envs e).env_pgdir p (k.envs e).env_ipc_dstva perm).2 ∧
      (InsertInstallsValid X →
        X.page_lookup (sys_ipc_can_send X k envid value srcva perm).2.mem
          (k.envs e).env_pgdir (k.envs e).env_ipc_dstva = some (p, perm ||| X.PTE_V) ∧
        (perm ||| X.PTE_V = perm →
          X.page_lookup (sys_ipc_can_send X k envid value srcva perm).2.mem
            (k.envs e).env_pgdir (k.envs e).env_ipc_dstva = some (p, perm)))) ∧
    (X.page_lookup k.mem (k.envs k.curenv).env_pgdir srcva = none →
      sys_ipc_can_send X k envid value srcva perm = (-(X.E_INVAL : Int), k)) := by
  obtain ⟨he1, he2⟩ := he
  subst he2
  have hpage : srcva ≠ 0 ∧
      (k.envs (X.envid2env k.envs k.curenv envid 0).2).env_ipc_dstva ≠ 0 := ⟨hs0, hd0⟩
  have hU : ¬ ((k.envs (X.envid2env k.envs k.curenv envid 0).2).env_ipc_dstva ≥ X.UTOP ∨
      srcva ≥ X.UTOP) := by omega
  constructor
  · intro p pte hl hins
    have e1 : sys_ipc_can_send X k envid value srcva perm =
        (0, ipc_deliver X { k with mem := (X.page_insert k.mem
          (k.envs (X.envid2env k.envs k.curenv envid 0).2).env_pgdir p
          (k.envs (X.envid2env k.envs k.curenv envid 0).2).env_ipc_dstva perm).2 }
          (X.envid2env k.envs k.curenv envid 0).2 value perm) := by
      unfold sys_ipc_can_send
      simp only [if_neg he1, if_neg hrcv, if_neg hU, if_pos hpage, hl, if_neg hins]
    rw [e1]
    refine ⟨rfl, ?_, ?_, rfl, ?_⟩
    · simp [ipc_deliver, Kernel.setEnv]
    · simp [ipc_deliver, Kernel.setEnv]
    · intro hI
      have hlook := hI _ _ _ _ _ hins
      refine ⟨hlook, fun hp => ?_⟩
      rw [hp] at hlook
      exact hlook
  · intro hl
    unfold sys_ipc_can_send
    simp only [if_neg he1, if_neg hrcv, if_neg hU, if_pos hpage, hl]

/-- Witness of C11 (amended) on the reference machine: B is receptive at
`0x00500000`; A sends its page at `0x00401000` (frame 4) with `perm = PTE_R`
and B gets the mapping with `PTE_R | PTE_V`; and A sends from `0x00403000`,
where it maps nothing. -/
theorem ipc_send_with_page_witness :
    Resolves mos kP 4097 0 1 ∧ (kP.envs 1).env_ipc_recving ≠ 0 ∧
    (0x00401000 : Nat) ≠ 0 ∧ (kP.envs 1).env_ipc_dstva ≠ 0 ∧
    0x00401000 < mos.UTOP ∧ (kP.envs 1).env_ipc_dstva < mos.UTOP ∧
    mos.page_lookup kP.mem (kP.envs kP.curenv).env_pgdir 0x00401000 = some (4, 0x600) ∧
    ¬ (mos.page_insert kP.mem (kP.envs 1).env_pgdir 4 (kP.envs 1).env_ipc_dstva 0x400).1 < 0 ∧
    ((sys_ipc_can_send mos kP 4097 42 0x00401000 0x400).1 = 0 ∧
     ((sys_ipc_can_send mos kP 4097 42 0x00401000 0x400).2.envs 1).env_ipc_perm = 0x400 ∧
     ((sys_ipc_can_send mos kP 4097 42 0x00401000 0x400).2.envs 1).env_pgdir
       = (kP.envs 1).env_pgdir ∧
     (sys_ipc_can_send mos kP 4097 42 0x00401000 0x400).2.mem
       = (mos.page_insert kP.mem (kP.envs 1).env_pgdir 4 (kP.envs 1).env_ipc_dstva 0x400).2) ∧
    mos.page_lookup (sys_ipc_can_send mos kP 4097 42 0x00401000 0x400).2.mem
      (kP.envs 1).env_pgdir (kP.envs 1).env_ipc_dstva = some (4, 0x400 ||| mos.PTE_V) ∧
    mos.page_lookup kP.mem (kP.envs kP.curenv).env_pgdir 0x00403000 = none ∧
    sys_ipc_can_send mos kP 4097 42 0x00403000 0x400 = (-(mos.E_INVAL : Int), kP) :=
  have h := (ipc_send_with_page mos kP 4097 42 0x00401000 0x400 1
    (by decide) (by decide) (by decide) (by decide) (by decide) (by decide)).1
    4 0x600 (by decide) (by decide)
  ⟨by decide, by decide, by decide, by decide, by decide, by decide, by decide, by decide,
    ⟨h.1, h.2.1, h.2.2.1, h.2.2.2.1⟩,
    (h.2.2.2.2 mos_insertInstallsValid).1,
    by decide,
    (ipc_send_with_page mos kP 4097 42 0x00403000 0x400 1
      (by decide) (by decide) (by decide) (by decide) (by decide) (by decide)).2
      (by decide)⟩

/-- C12 (off by one in the bound check): on the reference machine, B calls
`sys_ipc_recv(UTOP)`; `UTOP` is page-aligned and not strictly below `UTOP`,
yet the call does not return to B: it is dispatched away, and B has been made
receptive and `ENV_NOT_RUNNABLE` with `env_ipc_dstva = UTOP` (before the call
its flag was 0, its destination 0 and its status `ENV_RUNNABLE`). -/
theorem sys_ipc_recv_accepts_utop :
    mos.UTOP ≠ 0 ∧ mos.UTOP % mos.BY2PG = 0 ∧ ¬ mos.UTOP < mos.UTOP ∧
    (kB.envs kB.curenv).env_ipc_recving = 0 ∧ (kB.envs kB.curenv).env_ipc_dstva = 0 ∧
    (kB.envs kB.curenv).env_status = mos.ENV_RUNNABLE ∧
    (sys_ipc_recv mos mos.NENV kB mos.UTOP).map
      (fun k1 => ((k1.envs kB.curenv).env_ipc_recving, (k1.envs kB.curenv).env_ipc_dstva,
        (k1.envs kB.curenv).env_status))
      = some (1, mos.UTOP, mos.ENV_NOT_RUNNABLE) := by
  decide

/-- C19: whenever `sys_ipc_can_send` returns a negative value, the environment
table is what it was before the call; in particular the fields
`env_ipc_recving`, `env_ipc_from`, `env_ipc_value`, `env_ipc_perm`,
`env_ipc_dstva` and `env_status` of the target, as of every slot, are
unchanged. -/
theorem ipc_failed_send_keeps_envs (X : Collab M) (k : Kernel M)
    (envid value srcva perm : Nat)
    (hneg : (sys_ipc_can_send X k envid value srcva perm).1 < 0) :
    (sys_ipc_can_send X k envid value srcva perm).2.envs = k.envs ∧
    ∀ e, ((sys_ipc_can_send X k envid value srcva perm).2.envs e).env_ipc_recving
          = (k.envs e).env_ipc_recving ∧
        ((sys_ipc_can_send X k envid value srcva perm).2.envs e).env_ipc_from
          = (k.envs e).env_ipc_from ∧
        ((sys_ipc_can_send X k envid value srcva perm).2.envs e).env_ipc_value
          = (k.envs e).env_ipc_value ∧
        ((sys_ipc_can_send X k envid value srcva perm).2.envs e).env_ipc_perm
          = (k.envs e).env_ipc_perm ∧
        ((sys_ipc_can_send X k envid value srcva perm).2.envs e).env_ipc_dstva
          = (k.envs e).env_ipc_dstva ∧
        ((sys_ipc_can_send X k envid value srcva perm).2.envs e).env_status
          = (k.envs e).env_status := by
  have h : (sys_ipc_can_send X k envid value srcva perm).2.envs = k.envs := by
    rcases hl : X.page_lookup k.mem (k.envs k.curenv).env_pgdir srcva with _ | ⟨p, pte⟩
    · unfold sys_ipc_can_send at hneg ⊢
      simp only [hl] at hneg ⊢
      split_ifs at hneg ⊢ <;> first | rfl | exact absurd hneg (lt_irrefl (0 : Int))
    · unfold sys_ipc_can_send at hneg ⊢
      simp only [hl] at hneg ⊢
      split_ifs at hneg ⊢ <;> first | rfl | exact absurd hneg (lt_irrefl (0 : Int))
  refine ⟨h, fun e => ?_⟩
  rw [h]
  exact ⟨rfl, rfl, rfl, rfl, rfl, rfl⟩

/-- Witness of C19 on the reference machine: B is receptive with no
destination page and A sends with `srcva = UTOP`. -/
theorem ipc_failed_send_keeps_envs_witness :
    (sys_ipc_can_send mos kR 4097 42 mos.UTOP 0).1 < 0 ∧
    ((sys_ipc_can_send mos kR 4097 42 mos.UTOP 0).2.envs = kR.envs ∧
    ∀ e, ((sys_ipc_can_send mos kR 4097 42 mos.UTOP 0).2.envs e).env_ipc_recving
          = (kR.envs e).env_ipc_recving ∧
        ((sys_ipc_can_send mos kR 4097 42 mos.UTOP 0).2.envs e).env_ipc_from
          = (kR.envs e).env_ipc_from ∧
        ((sys_ipc_can_send mos kR 4097 42 mos.UTOP 0).2.envs e).env_ipc_value
          = (kR.envs e).env_ipc_value ∧
        ((sys_ipc_can_send mos kR 4097 42 mos.UTOP 0).2.envs e).env_ipc_perm
          = (kR.envs e).env_ipc_perm ∧
        ((sys_ipc_can_send mos kR 4097 42 mos.UTOP 0).2.envs e).env_ipc_dstva
          = (kR.envs e).env_ipc_dstva ∧
        ((sys_ipc_can_send mos kR 4097 42 mos.UTOP 0).2.envs e).env_status
          = (kR.envs e).env_status) :=
  ⟨by decide, ipc_failed_send_keeps_envs mos kR 4097 42 mos.UTOP 0 (by decide)⟩

/-- The reference `page_alloc` changes nothing when it fails. -/
theorem mos_allocFailKeeps : AllocFailKeeps mos := by
  intro m pgdir va h
  simp only [mos, ref_page_alloc] at h ⊢
  split at h
  · rename_i hnil
    simp only [hnil]
  · exact absurd h (lt_irrefl (0 : Int))

/-- The reference `ROUNDDOWN` rounds down to a page boundary. -/
theorem mos_roundsDown : RoundsDown mos := by
  intro a
  simp only [mos]
  omega

/-- C16: let `va` be page-aligned and below `UTOP`, `perm` contain `PTE_V`
and the target resolve under the authority check (slot `e`).  If `page_alloc`
hands out a frame and `page_insert` succeeds, `sys_mem_alloc` returns 0 and
afterwards the address space of `e` maps `va` to that frame with permission
`perm`, whatever was mapped at `va` before.  If `page_alloc` fails, the call
returns `-E_NO_MEM`, the environment table is unchanged and every address of
every address space resolves as before. -/
theorem sys_mem_alloc_success (X : Collab M) (k : Kernel M) (envid va perm e : Nat)
    (hva : va < X.UTOP) (hal : va % X.BY2PG = 0) (hV : perm &&& X.PTE_V ≠ 0)
    (he : Resolves X k envid 1 e) :
    (¬ (X.page_alloc k.mem).1 < 0 →
      ¬ (X.page_insert (X.page_alloc k.mem).2.2 (k.envs e).env_pgdir
          (X.page_alloc k.mem).2.1 va perm).1 < 0 →
      InsertInstalls X →
      (sys_mem_alloc X k envid va perm).1 = 0 ∧
      (sys_mem_alloc X k envid va perm).2.envs = k.envs ∧
      X.page_lookup (sys_mem_alloc X k envid va perm).2.mem (k.envs e).env_pgdir va
        = some ((X.page_alloc k.mem).2.1, perm)) ∧
    ((X.page_alloc k.mem).1 < 0 → AllocFailKeeps X →
      (sys_mem_alloc X k envid va perm).1 = -(X.E_NO_MEM : Int) ∧
      (sys_mem_alloc X k envid va perm).2.envs = k.envs ∧
      ∀ pgdir va', X.page_lookup (sys_mem_alloc X k envid va perm).2.mem pgdir va'
        = X.page_lookup k.mem pgdir va') := by
  obtain ⟨he1, he2⟩ := he
  subst he2
  have hg : ¬ (va ≥ X.UTOP ∨ va % X.BY2PG ≠ 0) := by omega
  constructor
  · intro ha hins hI
    have e1 : sys_mem_alloc X k envid va perm =
        (0, { k with mem := (X.page_insert (X.page_alloc k.mem).2.2
          (k.envs (X.envid2env k.envs k.curenv envid 1).2).env_pgdir
          (X.page_alloc k.mem).2.1 va perm).2 }) := by
      unfold sys_mem_alloc
      simp only [if_neg hg, if_neg hV, if_neg he1, if_neg ha, if_neg hins]
    rw [e1]
    exact ⟨rfl, rfl, hI _ _ _ _ _ hV hins⟩
  · intro ha hK
    have e1 : sys_mem_alloc X k envid va perm =
        (-(X.E_NO_MEM : Int), { k with mem := (X.page_alloc k.mem).2.2 }) := by
      unfold sys_mem_alloc
      simp only [if_neg hg, if_neg hV, if_neg he1, if_pos ha]
    rw [e1]
    exact ⟨rfl, rfl, fun pgdir va' => hK _ pgdir va' ha⟩

/-- Witness of C16 on the reference machine: A allocates at `0x00400000`,
where frame 3 was mapped read-only, and gets frame 7 writable; with no free
frame the same call returns `-E_NO_MEM`. -/
theorem sys_mem_alloc_success_witness :
    0x00400000 < mos.UTOP ∧ 0x00400000 % mos.BY2PG = 0 ∧ 0x600 &&& mos.PTE_V ≠ 0 ∧
    Resolves mos k0 2048 1 0 ∧
    mos.page_lookup k0.mem (k0.envs 0).env_pgdir 0x00400000 = some (3, 0x200) ∧
    (mos.page_alloc k0.mem).2.1 = 7 ∧
    ((sys_mem_alloc mos k0 2048 0x00400000 0x600).1 = 0 ∧
     (sys_mem_alloc mos k0 2048 0x00400000 0x600).2.envs = k0.envs ∧
     mos.page_lookup (sys_mem_alloc mos k0 2048 0x00400000 0x600).2.mem
       (k0.envs 0).env_pgdir 0x00400000 = some ((mos.page_alloc k0.mem).2.1, 0x600)) ∧
    (mos.page_alloc kE.mem).1 < 0 ∧
    ((sys_mem_alloc mos kE 2048 0x00400000 0x600).1 = -(mos.E_NO_MEM : Int) ∧
     (sys_mem_alloc mos kE 2048 0x00400000 0x600).2.envs = kE.envs ∧
     ∀ pgdir va', mos.page_lookup (sys_mem_alloc mos kE 2048 0x00400000 0x600).2.mem pgdir va'
       = mos.page_lookup kE.mem pgdir va') :=
  ⟨by decide, by decide, by decide, by decide, by decide, by decide,
    (sys_mem_alloc_success mos k0 2048 0x00400000 0x600 0
      (by decide) (by decide) (by decide) (by decide)).1
      (by decide) (by decide) mos_insertInstalls,
    by decide,
    (sys_mem_alloc_success mos kE 2048 0x00400000 0x600 0
      (by decide) (by decide) (by decide) (by decide)).2
      (by decide) mos_allocFailKeeps⟩

/-- C18, counterexample: on the reference machine A maps its page at the
unaligned address `0x00401004` into B at the unaligned address `0x00400008`;
`sys_mem_map` returns 0 and B, which mapped nothing, now maps the page at
`0x00400000` to frame 4. -/
theorem sys_mem_map_accepts_unaligned :
    0x00401004 % mos.BY2PG ≠ 0 ∧ 0x00400008 % mos.BY2PG ≠ 0 ∧
    (sys_mem_map mos k0 2048 0x00401004 4097 0x00400008 0x600).1 = 0 ∧
    mos.page_lookup k0.mem (k0.envs 1).env_pgdir 0x00400000 = none ∧
    mos.page_lookup (sys_mem_map mos k0 2048 0x00401004 4097 0x00400008 0x600).2.mem
      (k0.envs 1).env_pgdir 0x00400000 = some (4, 0x600) := by
  decide

/-- C18, amended: when both identifiers resolve, `sys_mem_map` returns
`-E_INVAL` and leaves the state unchanged if `srcva` or `dstva` is at or
above `UTOP`; for addresses below `UTOP`, aligned or not, the call has the
result and the final state of the call made with both addresses rounded down
to a page boundary. -/
theorem sys_mem_map_rounds_down (X : Collab M) (k : Kernel M)
    (srcid srcva dstid dstva perm s d : Nat) (hR : RoundsDown X)
    (hs : Resolves X k srcid 1 s) (hd : Resolves X k dstid 1 d) :
    (srcva ≥ X.UTOP ∨ dstva ≥ X.UTOP →
      sys_mem_map X k srcid srcva dstid dstva perm = (-(X.E_INVAL : Int), k)) ∧
    (srcva < X.UTOP → dstva < X.UTOP →
      sys_mem_map X k srcid srcva dstid dstva perm =
        sys_mem_map X k srcid (X.ROUNDDOWN srcva X.BY2PG) dstid
          (X.ROUNDDOWN dstva X.BY2PG) perm) := by
  obtain ⟨hs1, -⟩ := hs
  obtain ⟨hd1, -⟩ := hd
  constructor
  · intro hU
    unfold sys_mem_map
    simp only [if_neg hs1, if_neg hd1, if_pos hU]
  · intro hsv hdv
    have c1 : ¬ (srcva ≥ X.UTOP ∨ dstva ≥ X.UTOP) := by omega
    have c2 : ¬ (X.ROUNDDOWN srcva X.BY2PG ≥ X.UTOP ∨
        X.ROUNDDOWN dstva X.BY2PG ≥ X.UTOP) := by
      have h1 := (hR srcva).1
      have h2 := (hR dstva).1
      omega
    unfold sys_mem_map
    simp only [if_neg hs1, if_neg hd1, if_neg c1, if_neg c2, (hR srcva).2, (hR dstva).2]

/-- Witness of C18 (amended) on the reference machine: unaligned addresses
below `UTOP`, and a source address at `UTOP`. -/
theorem sys_mem_map_rounds_down_witness :
    Resolves mos k0 2048 1 0 ∧ Resolves mos k0 4097 1 1 ∧
    (mos.UTOP ≥ mos.UTOP ∨ 0x00400008 ≥ mos.UTOP) ∧
    sys_mem_map mos k0 2048 mos.UTOP 4097 0x00400008 0x600 = (-(mos.E_INVAL : Int), k0) ∧
    0x00401004 < mos.UTOP ∧ 0x00400008 < mos.UTOP ∧
    mos.ROUNDDOWN 0x00401004 mos.BY2PG = 0x00401000 ∧
    mos.ROUNDDOWN 0x00400008 mos.BY2PG = 0x00400000 ∧
    sys_mem_map mos k0 2048 0x00401004 4097 0x00400008 0x600 =
      sys_mem_map mos k0 2048 (mos.ROUNDDOWN 0x00401004 mos.BY2PG) 4097
        (mos.ROUNDDOWN 0x00400008 mos.BY2PG) 0x600 :=
  ⟨by decide, by decide, by decide,
    (sys_mem_map_rounds_down mos k0 2048 mos.UTOP 4097 0x00400008 0x600 0 1 mos_roundsDown
      (by decide) (by decide)).1 (by decide),
    by decide, by decide, by decide, by decide,
    (sys_mem_map_rounds_down mos k0 2048 0x00401004 4097 0x00400008 0x600 0 1 mos_roundsDown
      (by decide) (by decide)).2 (by decide) (by decide)⟩


/-- The reference `env_alloc` hands out a free slot and leaves the caller's
slot alone. -/
theorem mos_allocFresh : AllocFresh mos := by
  intro k pid hlive hok
  simp only [mos, ref_env_alloc] at hlive hok ⊢
  split at hok
  · exact absurd (show (-5 : Int) < 0 by decide) hok
  · rename_i j hj
    have hstat := List.find?_some hj
    simp only [decide_eq_true_eq] at hstat
    have hne : j ≠ k.curenv := by
      intro h
      rw [h] at hstat
      exact hlive hstat
    simp only [hj, Kernel.setEnv]
    refine ⟨trivial, hne, ?_, hstat⟩
    simp [Ne.symm hne]

/-- C15: let the caller be a live environment.  If `env_alloc` fails,
`sys_env_alloc` returns `-E_NO_FREE_ENV`.  If `env_alloc`, the allocation of
the stack page and its insertion succeed, `sys_env_alloc` returns the
identifier of the child (the one `env_alloc` gave to the new slot, which is
not the caller's slot), the child's status is `ENV_NOT_RUNNABLE`, the
caller's saved trap frame is the syscall-entry trap frame, and the child's
saved trap frame is that same frame except for `pc`, which is the frame's
`cp0_epc`, and `regs[2]`, which is 0. -/
theorem sys_env_alloc_post (X : Collab M) (k : Kernel M)
    (hF : AllocFresh X) (hlive : (k.envs k.curenv).env_status ≠ X.ENV_FREE) :
    ((sys_env_alloc_slot X k).1 < 0 →
      (sys_env_alloc X k).1 = -(X.E_NO_FREE_ENV : Int)) ∧
    (¬ (sys_env_alloc_slot X k).1 < 0 → ¬ (sys_env_alloc_page X k).1 < 0 →
      ¬ (sys_env_alloc_insert X k).1 < 0 →
      (sys_env_alloc X k).1
        = (((sys_env_alloc X k).2.envs (sys_env_alloc_slot X k).2.1).env_id : Int) ∧
      ((sys_env_alloc X k).2.envs (sys_env_alloc_slot X k).2.1).env_id
        = ((sys_env_alloc_slot X k).2.2.envs (sys_env_alloc_slot X k).2.1).env_id ∧
      (sys_env_alloc_slot X k).2.1 ≠ k.curenv ∧
      ((sys_env_alloc X k).2.envs (sys_env_alloc_slot X k).2.1).env_status
        = X.ENV_NOT_RUNNABLE ∧
      ((sys_env_alloc X k).2.envs k.curenv).env_tf = k.ksp_tf ∧
      ((sys_env_alloc X k).2.envs (sys_env_alloc_slot X k).2.1).env_tf
        = { k.ksp_tf with pc := k.ksp_tf.cp0_epc, regs := k.ksp_tf.regs.set 2 0 }) := by
  constructor
  · intro h
    unfold sys_env_alloc_slot at h
    unfold sys_env_alloc
    simp only [if_pos h]
  · intro h1 h2 h3
    have hlive' : ((k.setEnv k.curenv { k.envs k.curenv with env_tf := k.ksp_tf }).envs
        (k.setEnv k.curenv { k.envs k.curenv with env_tf := k.ksp_tf }).curenv).env_status
        ≠ X.ENV_FREE := by
      simpa [Kernel.setEnv] using hlive
    obtain ⟨f1, f2, f3, -⟩ := hF _ _ hlive' h1
    unfold sys_env_alloc_insert sys_env_alloc_page at h3
    unfold sys_env_alloc_page at h2
    unfold sys_env_alloc_slot at h1 h2 h3 ⊢
    unfold sys_env_alloc
    simp only [Kernel.setEnv, if_true, eq_self_iff_true] at f1 f2 f3 h1 h2 h3 ⊢
    generalize X.env_alloc _ _ = r at *
    obtain ⟨rc, e, K⟩ := r
    simp only at f1 f2 f3 h1 h2 h3 ⊢
    have f2' : ¬ K.curenv = e := by rw [f1]; exact fun h => f2 h.symm
    have f2'' : ¬ k.curenv = e := fun h => f2 h.symm
    simp only [if_neg h1, if_neg h2, if_neg f2'] at h3 ⊢
    simp only [if_neg h3]
    simp only [if_true, eq_self_iff_true, if_neg f2'', f1, f3]
    exact ⟨trivial, trivial, f2, trivial, trivial, trivial⟩

/-- C20: let the caller be a live environment for which `env_alloc` succeeds.
If then the allocation of the stack page fails, or it succeeds and its
insertion fails, `sys_env_alloc` returns a negative value, and yet the slot
handed out by `env_alloc`, free before the call, is left with status
`ENV_NOT_RUNNABLE`, the caller's saved trap frame has been overwritten with
the syscall-entry trap frame, and the environment table differs from the one
before the call. -/
theorem sys_env_alloc_not_atomic (X : Collab M) (k : Kernel M)
    (hF : AllocFresh X) (hlive : (k.envs k.curenv).env_status ≠ X.ENV_FREE)
    (hne : X.ENV_NOT_RUNNABLE ≠ X.ENV_FREE)
    (hslot : ¬ (sys_env_alloc_slot X k).1 < 0)
    (hfail : (sys_env_alloc_page X k).1 < 0 ∨
      (¬ (sys_env_alloc_page X k).1 < 0 ∧ (sys_env_alloc_insert X k).1 < 0)) :
    (sys_env_alloc X k).1 < 0 ∧
    (k.envs (sys_env_alloc_slot X k).2.1).env_status = X.ENV_FREE ∧
    ((sys_env_alloc X k).2.envs (sys_env_alloc_slot X k).2.1).env_status
      = X.ENV_NOT_RUNNABLE ∧
    ((sys_env_alloc X k).2.envs k.curenv).env_tf = k.ksp_tf ∧
    (sys_env_alloc X k).2.envs ≠ k.envs := by
  have hlive' : ((k.setEnv k.curenv { k.envs k.curenv with env_tf := k.ksp_tf }).envs
      (k.setEnv k.curenv { k.envs k.curenv with env_tf := k.ksp_tf }).curenv).env_status
      ≠ X.ENV_FREE := by
    simpa [Kernel.setEnv] using hlive
  obtain ⟨f1, f2, f3, f4⟩ := hF _ _ hlive' hslot
  have main : (sys_env_alloc X k).1 < 0 ∧
      (k.envs (sys_env_alloc_slot X k).2.1).env_status = X.ENV_FREE ∧
      ((sys_env_alloc X k).2.envs (sys_env_alloc_slot X k).2.1).env_status
        = X.ENV_NOT_RUNNABLE ∧
      ((sys_env_alloc X k).2.envs k.curenv).env_tf = k.ksp_tf := by
    unfold sys_env_alloc_insert sys_env_alloc_page at hfail
    unfold sys_env_alloc_slot at hslot hfail ⊢
    unfold sys_env_alloc
    simp only [Kernel.setEnv, if_true, eq_self_iff_true] at f1 f2 f3 f4 hslot hfail ⊢
    generalize X.env_alloc _ _ = r at *
    obtain ⟨rc, e, K⟩ := r
    simp only at f1 f2 f3 f4 hslot hfail ⊢
    have f2' : ¬ K.curenv = e := by rw [f1]; exact fun h => f2 h.symm
    have f2'' : ¬ k.curenv = e := fun h => f2 h.symm
    simp only [if_neg f2] at f4
    simp only [if_neg hslot, if_neg f2'] at hfail ⊢
    rcases hfail with h | ⟨h, h'⟩
    · simp only [if_pos h]
      refine ⟨h, f4, ?_, ?_⟩
      · simp only [if_true, eq_self_iff_true]
      · simp only [if_neg f2'', f1, f3]
    · simp only [if_neg h, if_pos h']
      refine ⟨h', f4, ?_, ?_⟩
      · simp only [if_true, eq_self_iff_true]
      · simp only [if_neg f2'', f1, f3]
  obtain ⟨m1, m2, m3, m4⟩ := main
  refine ⟨m1, m2, m3, m4, ?_⟩
  intro heq
  rw [heq, m2] at m3
  exact hne m3.symm

set_option maxRecDepth 100000 in
/-- Witness of C15 on the reference machine: with a full table the call
returns `-E_NO_FREE_ENV`; otherwise A gets a child in slot 2. -/
theorem sys_env_alloc_post_witness :
    (kS.envs kS.curenv).env_status ≠ mos.ENV_FREE ∧
    (sys_env_alloc_slot mos kFull).1 < 0 ∧
    (sys_env_alloc mos kFull).1 = -(mos.E_NO_FREE_ENV : Int) ∧
    ¬ (sys_env_alloc_slot mos kS).1 < 0 ∧ ¬ (sys_env_alloc_page mos kS).1 < 0 ∧
    ¬ (sys_env_alloc_insert mos kS).1 < 0 ∧
    (sys_env_alloc_slot mos kS).2.1 = 2 ∧
    ((sys_env_alloc mos kS).1
        = (((sys_env_alloc mos kS).2.envs (sys_env_alloc_slot mos kS).2.1).env_id : Int) ∧
      ((sys_env_alloc mos kS).2.envs (sys_env_alloc_slot mos kS).2.1).env_id
        = ((sys_env_alloc_slot mos kS).2.2.envs (sys_env_alloc_slot mos kS).2.1).env_id ∧
      (sys_env_alloc_slot mos kS).2.1 ≠ kS.curenv ∧
      ((sys_env_alloc mos kS).2.envs (sys_env_alloc_slot mos kS).2.1).env_status
        = mos.ENV_NOT_RUNNABLE ∧
      ((sys_env_alloc mos kS).2.envs kS.curenv).env_tf = kS.ksp_tf ∧
      ((sys_env_alloc mos kS).2.envs (sys_env_alloc_slot mos kS).2.1).env_tf
        = { kS.ksp_tf with pc := kS.ksp_tf.cp0_epc, regs := kS.ksp_tf.regs.set 2 0 }) :=
  ⟨by decide, by decide,
    (sys_env_alloc_post mos kFull mos_allocFresh (by decide)).1 (by decide),
    by decide, by decide, by decide, by decide,
    (sys_env_alloc_post mos kS mos_allocFresh (by decide)).2
      (by decide) (by decide) (by decide)⟩

set_option maxRecDepth 100000 in
/-- Witness of C20 on the reference machine: slot 2 is free but no frame is
left for the stack page of the child. -/
theorem sys_env_alloc_not_atomic_witness :
    (kSE.envs kSE.curenv).env_status ≠ mos.ENV_FREE ∧
    mos.ENV_NOT_RUNNABLE ≠ mos.ENV_FREE ∧
    ¬ (sys_env_alloc_slot mos kSE).1 < 0 ∧
    ((sys_env_alloc_page mos kSE).1 < 0 ∨
      (¬ (sys_env_alloc_page mos kSE).1 < 0 ∧ (sys_env_alloc_insert mos kSE).1 < 0)) ∧
    (sys_env_alloc_slot mos kSE).2.1 = 2 ∧
    (kSE.envs kSE.curenv).env_tf ≠ kSE.ksp_tf ∧
    ((sys_env_alloc mos kSE).1 < 0 ∧
     (kSE.envs (sys_env_alloc_slot mos kSE).2.1).env_status = mos.ENV_FREE ∧
     ((sys_env_alloc mos kSE).2.envs (sys_env_alloc_slot mos kSE).2.1).env_status
       = mos.ENV_NOT_RUNNABLE ∧
     ((sys_env_alloc mos kSE).2.envs kSE.curenv).env_tf = kSE.ksp_tf ∧
     (sys_env_alloc mos kSE).2.envs ≠ kSE.envs) :=
  ⟨by decide, by decide, by decide, by decide, by decide, by decide,
    sys_env_alloc_not_atomic mos kSE mos_allocFresh (by decide) (by decide) (by decide)
      (by decide)⟩


/-- The reference `env_alloc` frees no slot. -/
theorem mos_allocKeepsLive : AllocKeepsLive mos := by
  intro k pid j hlive
  simp only [mos, ref_env_alloc] at hlive ⊢
  split
  · exact hlive
  · rename_i s hs
    simp only [Kernel.setEnv]
    by_cases h : j = s
    · simp [h]
    · simp only [if_neg h]
      exact hlive

/-- Whatever `sched_yield` returns is a dispatch of a runnable slot from a
state with the table it was entered with. -/
theorem sched_yield_dispatches (X : Collab M) (fuel : Nat) :
    ∀ (k k' : Kernel M), sched_yield X fuel k = some k' →
      ∃ (K : Kernel M) (j : Nat), k' = X.env_run K j ∧ K.envs = k.envs ∧
        (k.envs j).env_status = X.ENV_RUNNABLE := by
  induction fuel with
  | zero =>
    intro k k' h
    simp [sched_yield] at h
  | succ f ih =>
    intro k k' h
    unfold sched_yield at h
    split_ifs at h with hc
    · refine ⟨_, k.sched_i, (Option.some.inj h).symm, rfl, hc⟩
    · obtain ⟨K, j, h1, h2, h3⟩ := ih _ _ h
      exact ⟨K, j, h1, h2, h3⟩

/-- Under the contract of `env_run`, a call of `sched_yield` changes no
status. -/
theorem status_after_run (X : Collab M) (hK : RunKeepsEnvs X) (fuel : Nat)
    (k k' : Kernel M) (h : sched_yield X fuel k = some k') (j : Nat) :
    (k'.envs j).env_status = (k.envs j).env_status := by
  obtain ⟨K, s, h1, h2, -⟩ := sched_yield_dispatches X fuel k k' h
  rw [h1, (run_keeps_fields X hK K s j).2.1, h2]

/-- C17, amended: in the step relation of the syscall layer, an environment
whose status is `ENV_RUNNABLE` or `ENV_NOT_RUNNABLE` does not have status
`ENV_FREE` after any call other than `sys_env_destroy` and
`sys_set_env_status` with the status `ENV_FREE`: not after `sys_putchar`,
`sys_getenvid`, `sys_yield`, `sys_set_pgfault_handler`, `sys_mem_alloc`,
`sys_mem_map`, `sys_mem_unmap`, `sys_env_alloc`, `sys_set_trapframe`,
`sys_ipc_recv`, `sys_ipc_can_send`, nor after `sys_set_env_status` with
another status. -/
theorem step_keeps_live (X : Collab M) (fuel : Nat) (k k' : Kernel M) (c : Syscall) (j : Nat)
    (hK : RunKeepsEnvs X) (hA : AllocKeepsLive X)
    (hR : X.ENV_RUNNABLE ≠ X.ENV_FREE) (hN : X.ENV_NOT_RUNNABLE ≠ X.ENV_FREE)
    (hc : c.frees X = false)
    (hlive : (k.envs j).env_status = X.ENV_RUNNABLE ∨
      (k.envs j).env_status = X.ENV_NOT_RUNNABLE)
    (hstep : step X fuel k c = some k') :
    (k'.envs j).env_status ≠ X.ENV_FREE := by
  have hl : (k.envs j).env_status ≠ X.ENV_FREE := by
    rcases hlive with h | h <;> rw [h] <;> assumption
  cases c with
  | putchar c => simp only [step, Option.some.injEq] at hstep; rw [← hstep]; exact hl
  | getenvid => simp only [step, Option.some.injEq] at hstep; rw [← hstep]; exact hl
  | set_trapframe e => simp only [step, Option.some.injEq] at hstep; rw [← hstep]; exact hl
  | panic => simp [step] at hstep
  | yield =>
    simp only [step, sys_yield] at hstep
    rw [status_after_run X hK fuel _ _ hstep j]
    exact hl
  | env_destroy e => simp [Syscall.frees] at hc
  | set_pgfault_handler envid func xs =>
    simp only [step, Option.some.injEq] at hstep
    rw [← hstep]
    unfold sys_set_pgfault_handler
    simp only [Kernel.setEnv]
    split_ifs
    · exact hl
    · dsimp only
      split_ifs with hj
      · subst hj; exact hl
      · exact hl
  | mem_alloc envid va perm =>
    simp only [step, Option.some.injEq] at hstep
    rw [← hstep]
    unfold sys_mem_alloc
    simp only []
    split_ifs <;> exact hl
  | mem_map srcid srcva dstid dstva perm =>
    simp only [step, Option.some.injEq] at hstep
    rw [← hstep]
    unfold sys_mem_map
    simp only []
    split_ifs
    any_goals exact hl
    split
    · exact hl
    · split_ifs <;> exact hl
  | mem_unmap envid va =>
    simp only [step, Option.some.injEq] at hstep
    rw [← hstep]
    unfold sys_mem_unmap
    simp only []
    split_ifs <;> exact hl
  | env_alloc =>
    simp only [step, Option.some.injEq] at hstep
    rw [← hstep]
    have hl1 : ((k.setEnv k.curenv { k.envs k.curenv with env_tf := k.ksp_tf }).envs j).env_status
        ≠ X.ENV_FREE := by
      simp only [Kernel.setEnv]
      split_ifs with hj
      · subst hj; exact hl
      · exact hl
    have hl2 := hA _ ((k.setEnv k.curenv { k.envs k.curenv with env_tf := k.ksp_tf }).envs
      (k.setEnv k.curenv { k.envs k.curenv with env_tf := k.ksp_tf }).curenv).env_id j hl1
    unfold sys_env_alloc
    simp only [Kernel.setEnv, if_true, eq_self_iff_true] at hl2 ⊢
    generalize X.env_alloc _ _ = r at *
    obtain ⟨rc, e, K⟩ := r
    simp only at hl2 ⊢
    by_cases hje : j = e
    · subst hje
      split_ifs <;> first | exact hl2 | (simp only [if_true]; exact hN)
    · split_ifs <;> first | exact hl2 | (simp only [if_neg hje]; exact hl2)
  | set_env_status envid status =>
    simp only [Syscall.frees, decide_eq_false_iff_not] at hc
    simp only [step, Option.some.injEq] at hstep
    rw [← hstep]
    unfold sys_set_env_status
    simp only [Kernel.setEnv]
    split_ifs
    · exact hl
    · exact hl
    · dsimp only
      split_ifs with hj
      · exact hc
      · exact hl
  | ipc_recv dstva =>
    simp only [step] at hstep
    unfold sys_ipc_recv at hstep
    split_ifs at hstep with hg
    · rw [← Option.some.inj hstep]; exact hl
    · unfold sys_yield at hstep
      rw [status_after_run X hK fuel _ _ hstep j]
      simp only [Kernel.setEnv]
      split_ifs
      · exact hN
      · exact hl
  | ipc_can_send envid value srcva perm =>
    simp only [step, Option.some.injEq] at hstep
    rw [← hstep]
    have hd : ∀ (K : Kernel M) (e p : Nat), K.envs = k.envs →
        ((ipc_deliver X K e value p).envs j).env_status ≠ X.ENV_FREE := by
      intro K e p hKe
      simp only [ipc_deliver, Kernel.setEnv, hKe]
      split_ifs
      · exact hR
      · exact hl
    unfold sys_ipc_can_send
    simp only []
    split_ifs
    any_goals exact hl
    · split
      · exact hl
      · split_ifs
        · exact hl
        · exact hd _ _ _ rfl
    · exact hd _ _ _ rfl

/-- C17, counterexample: on the reference machine A calls
`sys_set_env_status(id of B, ENV_FREE)`; the call is not `sys_env_destroy`,
returns 0, and B, which was `ENV_RUNNABLE`, has status `ENV_FREE`. -/
theorem sys_set_env_status_frees :
    (k0.envs 1).env_status = mos.ENV_RUNNABLE ∧
    (sys_set_env_status mos k0 4097 mos.ENV_FREE).1 = 0 ∧
    ((sys_set_env_status mos k0 4097 mos.ENV_FREE).2.envs 1).env_status = mos.ENV_FREE ∧
    (step mos mos.NENV k0 (.set_env_status 4097 mos.ENV_FREE)).map
      (fun k' => (k'.envs 1).env_status) = some mos.ENV_FREE := by
  decide

/-- Witness of C17 (amended) on the reference machine: A blocks B with
`sys_set_env_status(id of B, ENV_NOT_RUNNABLE)`. -/
theorem step_keeps_live_witness :
    mos.ENV_RUNNABLE ≠ mos.ENV_FREE ∧ mos.ENV_NOT_RUNNABLE ≠ mos.ENV_FREE ∧
    (Syscall.set_env_status 4097 mos.ENV_NOT_RUNNABLE).frees mos = false ∧
    ((k0.envs 1).env_status = mos.ENV_RUNNABLE ∨
      (k0.envs 1).env_status = mos.ENV_NOT_RUNNABLE) ∧
    step mos mos.NENV k0 (.set_env_status 4097 mos.ENV_NOT_RUNNABLE)
      = some (sys_set_env_status mos k0 4097 mos.ENV_NOT_RUNNABLE).2 ∧
    ((sys_set_env_status mos k0 4097 mos.ENV_NOT_RUNNABLE).2.envs 1).env_status
      ≠ mos.ENV_FREE :=
  ⟨by decide, by decide, by decide, by decide, rfl,
    step_keeps_live mos mos.NENV k0 (sys_set_env_status mos k0 4097 mos.ENV_NOT_RUNNABLE).2
      (.set_env_status 4097 mos.ENV_NOT_RUNNABLE) 1 mos_runKeepsEnvs mos_allocKeepsLive
      (by decide) (by decide) (by decide) (by decide) rfl⟩

/-! ## Scheduler: selection and fairness -/

/-- The reference `env_run` leaves the counter of the scheduler alone. -/
theorem mos_runKeepsIndex : RunKeepsIndex mos := by
  intro k e
  rfl

/-- `sched_yield` is the scan followed by the dispatch. -/
theorem sched_yield_eq_scan (X : Collab M) (fuel : Nat) :
    ∀ k : Kernel M, sched_yield X fuel k =
      (sched_scan X fuel k).map (fun r => X.env_run r.2 r.1) := by
  induction fuel with
  | zero => intro k; rfl
  | succ f ih =>
    intro k
    unfold sched_yield sched_scan
    split_ifs
    · rfl
    · exact ih _

/-- The scan stops at the first runnable slot in circular order. -/
theorem sched_scan_first (X : Collab M) (d : Nat) :
    ∀ (k : Kernel M) (fuel : Nat), k.sched_i < X.NENV → d < fuel →
      (∀ d', d' < d → (k.envs ((k.sched_i + d') % X.NENV)).env_status ≠ X.ENV_RUNNABLE) →
      (k.envs ((k.sched_i + d) % X.NENV)).env_status = X.ENV_RUNNABLE →
      sched_scan X fuel k =
        some ((k.sched_i + d) % X.NENV,
          { k with sched_i := ((k.sched_i + d) % X.NENV + 1) % X.NENV }) := by
  induction d with
  | zero =>
    intro k fuel hi hf _ hr
    obtain ⟨f, rfl⟩ : ∃ f, fuel = f + 1 := ⟨fuel - 1, by omega⟩
    simp only [Nat.add_zero, Nat.mod_eq_of_lt hi] at hr ⊢
    unfold sched_scan
    rw [if_pos hr]
  | succ d ih =>
    intro k fuel hi hf hnot hr
    obtain ⟨f, rfl⟩ : ∃ f, fuel = f + 1 := ⟨fuel - 1, by omega⟩
    have hN : 0 < X.NENV := by omega
    have h0 : (k.envs k.sched_i).env_status ≠ X.ENV_RUNNABLE := by
      have := hnot 0 (by omega)
      rwa [Nat.add_zero, Nat.mod_eq_of_lt hi] at this
    have hshift : ∀ t, ((k.sched_i + 1) % X.NENV + t) % X.NENV
        = (k.sched_i + (t + 1)) % X.NENV := by
      intro t
      rw [Nat.mod_add_mod]
      congr 1
      omega
    have h := ih { k with sched_i := (k.sched_i + 1) % X.NENV } f (Nat.mod_lt _ hN) (by omega)
      (by
        intro d' hd'
        show (k.envs (((k.sched_i + 1) % X.NENV + d') % X.NENV)).env_status ≠ _
        rw [hshift]
        exact hnot (d' + 1) (by omega))
      (by
        show (k.envs (((k.sched_i + 1) % X.NENV + d) % X.NENV)).env_status = _
        rw [hshift]
        exact hr)
    unfold sched_scan
    rw [if_neg h0, h]
    simp only [hshift]

/-- While the probes it may make all hit slots that are not runnable, the scan
does not end. -/
theorem sched_scan_none (X : Collab M) (fuel : Nat) :
    ∀ (k : Kernel M), k.sched_i < X.NENV →
      (∀ d', d' < fuel → (k.envs ((k.sched_i + d') % X.NENV)).env_status ≠ X.ENV_RUNNABLE) →
      sched_scan X fuel k = none := by
  induction fuel with
  | zero => intro k _ _; rfl
  | succ f ih =>
    intro k hi hnot
    have hN : 0 < X.NENV := by omega
    have h0 : (k.envs k.sched_i).env_status ≠ X.ENV_RUNNABLE := by
      have := hnot 0 (by omega)
      rwa [Nat.add_zero, Nat.mod_eq_of_lt hi] at this
    unfold sched_scan
    rw [if_neg h0]
    apply ih _ (Nat.mod_lt _ hN)
    intro d' hd'
    show (k.envs (((k.sched_i + 1) % X.NENV + d') % X.NENV)).env_status ≠ _
    rw [Nat.mod_add_mod]
    have e : k.sched_i + 1 + d' = k.sched_i + (d' + 1) := by omega
    rw [e]
    exact hnot (d' + 1) (by omega)

/-- C13: let the remembered index `i` be below `NENV` and some slot below
`NENV` be runnable.  Then there is a number `d < NENV` of circular steps such
that slot `j = (i + d) mod NENV` is runnable and none of the `d` slots before
it in the circular order `i, i+1, ..., NENV-1, 0, ..., i-1` is; `sched_yield`
ends after exactly `d + 1` probes (it has ended with any larger number of
probes allowed and has not with fewer), which is at most `NENV`, in the
dispatch `env_run` of slot `j`, entered with the remembered index
`(j + 1) mod NENV`; and whatever `sched_yield` dispatches, from any number of
probes, is a slot whose status is `ENV_RUNNABLE`. -/
theorem sched_yield_round_robin (X : Collab M) (k : Kernel M) (a : Nat)
    (hi : k.sched_i < X.NENV) (ha : a < X.NENV)
    (hrun : (k.envs a).env_status = X.ENV_RUNNABLE) :
    ∃ d, d < X.NENV ∧
      (k.envs ((k.sched_i + d) % X.NENV)).env_status = X.ENV_RUNNABLE ∧
      (∀ d', d' < d → (k.envs ((k.sched_i + d') % X.NENV)).env_status ≠ X.ENV_RUNNABLE) ∧
      (∀ fuel, d < fuel →
        sched_yield X fuel k = some (X.env_run
          { k with sched_i := ((k.sched_i + d) % X.NENV + 1) % X.NENV }
          ((k.sched_i + d) % X.NENV))) ∧
      (∀ fuel, fuel ≤ d → sched_yield X fuel k = none) ∧
      (∀ fuel k', sched_yield X fuel k = some k' →
        ∃ (K : Kernel M) (j : Nat), k' = X.env_run K j ∧ K.envs = k.envs ∧
          (k.envs j).env_status = X.ENV_RUNNABLE) := by
  obtain ⟨d0, hd0, hda⟩ := circular_distance X.NENV k.sched_i a hi ha
  have hex : ∃ d, (k.envs ((k.sched_i + d) % X.NENV)).env_status = X.ENV_RUNNABLE :=
    ⟨d0, by rw [hda]; exact hrun⟩
  refine ⟨Nat.find hex, ?_, Nat.find_spec hex, ?_, ?_, ?_, ?_⟩
  · exact lt_of_le_of_lt (Nat.find_min' hex (by rw [hda]; exact hrun)) hd0
  · intro d' hd'
    exact Nat.find_min hex hd'
  · intro fuel hf
    rw [sched_yield_eq_scan, sched_scan_first X (Nat.find hex) k fuel hi hf
      (fun d' hd' => Nat.find_min hex hd') (Nat.find_spec hex)]
    rfl
  · intro fuel hf
    rw [sched_yield_eq_scan, sched_scan_none X fuel k hi
      (fun d' hd' => Nat.find_min hex (lt_of_lt_of_le hd' hf))]
    rfl
  · intro fuel k' h
    exact sched_yield_dispatches X fuel k k' h

/-- Witness of C13 on the reference machine: B (slot 1) is blocked, A (slot 0)
is runnable and the remembered index is 1. -/
theorem sched_yield_round_robin_witness :
    kR1.sched_i < mos.NENV ∧ 0 < mos.NENV ∧ (kR1.envs 0).env_status = mos.ENV_RUNNABLE ∧
    ∃ d, d < mos.NENV ∧
      (kR1.envs ((kR1.sched_i + d) % mos.NENV)).env_status = mos.ENV_RUNNABLE ∧
      (∀ d', d' < d →
        (kR1.envs ((kR1.sched_i + d') % mos.NENV)).env_status ≠ mos.ENV_RUNNABLE) ∧
      (∀ fuel, d < fuel →
        sched_yield mos fuel kR1 = some (mos.env_run
          { kR1 with sched_i := ((kR1.sched_i + d) % mos.NENV + 1) % mos.NENV }
          ((kR1.sched_i + d) % mos.NENV))) ∧
      (∀ fuel, fuel ≤ d → sched_yield mos fuel kR1 = none) ∧
      (∀ fuel k', sched_yield mos fuel kR1 = some k' →
        ∃ (K : Kernel Mem) (j : Nat), k' = mos.env_run K j ∧ K.envs = kR1.envs ∧
          (kR1.envs j).env_status = mos.ENV_RUNNABLE) :=
  ⟨by decide, by decide, by decide,
    sched_yield_round_robin mos kR1 0 (by decide) (by decide) (by decide)⟩

/-- More probes do not change the outcome of a scan that ended. -/
theorem sched_scan_mono (X : Collab M) (fuel : Nat) :
    ∀ (k : Kernel M) (r : Nat × Kernel M) (fuel' : Nat), fuel ≤ fuel' →
      sched_scan X fuel k = some r → sched_scan X fuel' k = some r := by
  induction fuel with
  | zero =>
    intro k r fuel' _ h
    simp [sched_scan] at h
  | succ f ih =>
    intro k r fuel' hle h
    obtain ⟨f', rfl⟩ : ∃ f', fuel' = f' + 1 := ⟨fuel' - 1, by omega⟩
    unfold sched_scan at h ⊢
    split_ifs at h ⊢ with hc
    · exact h
    · exact ih _ r f' (by omega) h

/-- More probes per invocation do not change the outcome of a sequence of
invocations that ended. -/
theorem sched_rounds_mono (X : Collab M) (fuel fuel' : Nat) (hle : fuel ≤ fuel') (n : Nat) :
    ∀ (k : Kernel M) (r : List Nat × Kernel M),
      sched_rounds X fuel n k = some r → sched_rounds X fuel' n k = some r := by
  induction n with
  | zero =>
    intro k r h
    exact h
  | succ n ih =>
    intro k r h
    unfold sched_rounds at h ⊢
    rcases hs : sched_scan X fuel k with _ | ⟨j, K⟩
    · simp [hs] at h
    · rw [hs] at h
      rw [sched_scan_mono X fuel k (j, K) fuel' hle hs]
      simp only at h ⊢
      rcases hr : sched_rounds X fuel n (X.env_run K j) with _ | ⟨js, k'⟩
      · simp [hr] at h
      · rw [hr] at h
        rw [ih _ _ hr]
        exact h

/-- A scan that ends leaves the table as it is and stops at a runnable slot. -/
theorem sched_scan_dispatches (X : Collab M) (fuel : Nat) :
    ∀ (k : Kernel M) (j : Nat) (K : Kernel M), sched_scan X fuel k = some (j, K) →
      K.envs = k.envs ∧ (k.envs j).env_status = X.ENV_RUNNABLE := by
  induction fuel with
  | zero =>
    intro k j K h
    simp [sched_scan] at h
  | succ f ih =>
    intro k j K h
    unfold sched_scan at h
    split_ifs at h with hc
    · simp only [Option.some.injEq, Prod.mk.injEq] at h
      obtain ⟨h1, h2⟩ := h
      subst h1
      subst h2
      exact ⟨rfl, hc⟩
    · exact ih { k with sched_i := (k.sched_i + 1) % X.NENV } j K h

/-- Under the contract of `env_run`, every slot dispatched by a sequence of
invocations was runnable in the table the sequence started with. -/
theorem sched_rounds_runnable (X : Collab M) (hK : RunKeepsEnvs X) (fuel n : Nat) :
    ∀ (k : Kernel M) (r : List Nat × Kernel M), sched_rounds X fuel n k = some r →
      ∀ j ∈ r.1, (k.envs j).env_status = X.ENV_RUNNABLE := by
  induction n with
  | zero =>
    intro k r h j hj
    simp only [sched_rounds, Option.some.injEq] at h
    subst h
    simp at hj
  | succ n ih =>
    intro k r h j hj
    unfold sched_rounds at h
    rcases hs : sched_scan X fuel k with _ | ⟨s, K⟩
    · simp [hs] at h
    · rw [hs] at h
      simp only at h
      rcases hr : sched_rounds X fuel n (X.env_run K s) with _ | ⟨js, k'⟩
      · simp [hr] at h
      · rw [hr] at h
        simp only [Option.some.injEq] at h
        subst h
        obtain ⟨hKe, hsr⟩ := sched_scan_dispatches X fuel k s K hs
        rcases List.mem_cons.mp hj with h1 | h1
        · rw [h1]; exact hsr
        · have := ih _ _ hr j h1
          rw [(run_keeps_fields X hK K s j).2.1, hKe] at this
          exact this

/-- Within `T` probes in all, the invocations of `sched_yield` dispatch the
runnable slots met by the probes, in the order of the probes. -/
theorem sched_rounds_scan (X : Collab M) (hK : RunKeepsEnvs X) (hI : RunKeepsIndex X)
    (p : Nat → Bool) (T : Nat) :
    ∀ (fuel : Nat) (k : Kernel M), T ≤ fuel → k.sched_i < X.NENV →
      (∀ j, decide ((k.envs j).env_status = X.ENV_RUNNABLE) = p j) →
      ∃ k', sched_rounds X fuel
          (((List.range T).map (fun t => (k.sched_i + t) % X.NENV)).filter p).length k
        = some (((List.range T).map (fun t => (k.sched_i + t) % X.NENV)).filter p, k') := by
  induction T with
  | zero =>
    intro fuel k _ _ _
    exact ⟨k, rfl⟩
  | succ T ih =>
    intro fuel k hT hi hp
    obtain ⟨f, rfl⟩ : ∃ f, fuel = f + 1 := ⟨fuel - 1, by omega⟩
    have hN : 0 < X.NENV := by omega
    have hlist : (List.range (T + 1)).map (fun t => (k.sched_i + t) % X.NENV)
        = k.sched_i :: (List.range T).map
            (fun t => ((k.sched_i + 1) % X.NENV + t) % X.NENV) := by
      rw [List.range_succ_eq_map, List.map_cons, List.map_map, Nat.add_zero,
        Nat.mod_eq_of_lt hi]
      congr 1
      apply List.map_congr_left
      intro t _
      simp only [Function.comp, Nat.mod_add_mod]
      congr 1
      omega
    rw [hlist]
    by_cases hc : (k.envs k.sched_i).env_status = X.ENV_RUNNABLE
    · have hpi : p k.sched_i = true := by rw [← hp]; exact decide_eq_true hc
      rw [List.filter_cons_of_pos hpi, List.length_cons]
      have hscan : sched_scan X (f + 1) k
          = some (k.sched_i, { k with sched_i := (k.sched_i + 1) % X.NENV }) := by
        unfold sched_scan
        rw [if_pos hc]
      have hi2 : (X.env_run { k with sched_i := (k.sched_i + 1) % X.NENV } k.sched_i).sched_i
          = (k.sched_i + 1) % X.NENV := hI _ _
      obtain ⟨k', hk'⟩ := ih (f + 1)
        (X.env_run { k with sched_i := (k.sched_i + 1) % X.NENV } k.sched_i) (by omega)
        (by rw [hi2]; exact Nat.mod_lt _ hN)
        (by
          intro j
          rw [(run_keeps_fields X hK _ k.sched_i j).2.1]
          exact hp j)
      rw [hi2] at hk'
      refine ⟨k', ?_⟩
      unfold sched_rounds
      rw [hscan]
      simp only
      rw [hk']
    · have hpi : ¬ p k.sched_i = true := by
        rw [← hp]; simpa using hc
      rw [List.filter_cons_of_neg hpi]
      obtain ⟨k', hk'⟩ := ih f { k with sched_i := (k.sched_i + 1) % X.NENV } (by omega)
        (Nat.mod_lt _ hN) hp
      simp only at hk'
      generalize ((List.range T).map
        (fun t => ((k.sched_i + 1) % X.NENV + t) % X.NENV)).filter p = L at hk' ⊢
      cases L with
      | nil => exact ⟨k, rfl⟩
      | cons j js =>
        simp only [List.length_cons] at hk' ⊢
        unfold sched_rounds at hk' ⊢
        have hstep : sched_scan X (f + 1) k
            = sched_scan X f { k with sched_i := (k.sched_i + 1) % X.NENV } := by
          conv_lhs => unfold sched_scan
          rw [if_neg hc]
        rw [hstep]
        rcases hs : sched_scan X f { k with sched_i := (k.sched_i + 1) % X.NENV }
          with _ | ⟨s, K⟩
        · simp [hs] at hk'
        · rw [hs] at hk'
          simp only at hk' ⊢
          rcases hr : sched_rounds X f js.length (X.env_run K s) with _ | ⟨js', k''⟩
          · simp [hr] at hk'
          · rw [hr] at hk'
            rw [sched_rounds_mono X f (f + 1) (by omega) _ _ _ hr]
            simp only [Option.some.injEq, Prod.mk.injEq, List.cons.injEq] at hk'
            obtain ⟨⟨h1, h2⟩, -⟩ := hk'
            exact ⟨k'', by rw [h1, h2]⟩

/-- The circular order from an index below `n` lists every slot below `n`
once. -/
theorem circular_perm (n i : Nat) (hi : i < n) : (circular n i).Perm (List.range n) := by
  have hnd : (circular n i).Nodup := by
    unfold circular
    apply List.Nodup.map_on _ (List.nodup_range n)
    intro x hx y hy hxy
    rw [List.mem_range] at hx hy
    exact Nat.ModEq.eq_of_lt_of_lt (Nat.ModEq.add_left_cancel' i hxy) hx hy
  rw [List.perm_ext_iff_of_nodup hnd (List.nodup_range n)]
  intro a
  unfold circular
  rw [List.mem_map, List.mem_range]
  constructor
  · rintro ⟨t, -, rfl⟩
    exact Nat.mod_lt _ (by omega)
  · intro ha
    obtain ⟨d, hd, hda⟩ := circular_distance n i a hi ha
    exact ⟨d, List.mem_range.mpr hd, hda⟩

/-- C14: let the remembered index be below `NENV`, and let dispatching
change neither a status nor the remembered index.  With `k` runnable slots in
the table, `k` consecutive invocations of `sched_yield` dispatch exactly the
runnable slots taken in circular order from the remembered index (the slot
after the one dispatched last): a list without repetition that is a
rearrangement of the runnable slots, so each is dispatched exactly once.  And
once a slot has been set to `ENV_NOT_RUNNABLE`, no sequence of invocations
dispatches it. -/
theorem sched_yield_fair (X : Collab M) (k : Kernel M)
    (hK : RunKeepsEnvs X) (hI : RunKeepsIndex X) (hi : k.sched_i < X.NENV)
    (hne : X.ENV_NOT_RUNNABLE ≠ X.ENV_RUNNABLE) :
    (∃ k', sched_rounds X X.NENV (runnable_slots X k).length k
      = some (runnable_from X k, k')) ∧
    (runnable_from X k).Perm (runnable_slots X k) ∧
    (runnable_from X k).Nodup ∧
    (∀ (s n fuel : Nat),
      ∀ js ∈ (sched_rounds X fuel n
          (k.setEnv s { k.envs s with env_status := X.ENV_NOT_RUNNABLE })).map Prod.fst,
        s ∉ js) := by
  have hperm : (runnable_from X k).Perm (runnable_slots X k) :=
    (circular_perm X.NENV k.sched_i hi).filter _
  refine ⟨?_, hperm, ?_, ?_⟩
  · obtain ⟨k', hk'⟩ := sched_rounds_scan X hK hI
      (fun j => decide ((k.envs j).env_status = X.ENV_RUNNABLE)) X.NENV X.NENV k
      (le_refl _) hi (fun _ => rfl)
    refine ⟨k', ?_⟩
    rw [← hperm.length_eq]
    exact hk'
  · exact (hperm.nodup_iff).mpr ((List.nodup_range _).filter _)
  · intro s n fuel js hjs hmem
    rw [Option.mem_def, Option.map_eq_some'] at hjs
    obtain ⟨r, hr, rfl⟩ := hjs
    have := sched_rounds_runnable X hK fuel n _ r hr s hmem
    simp only [Kernel.setEnv, if_true] at this
    exact hne this

set_option maxRecDepth 100000 in
set_option maxHeartbeats 4000000 in
/-- Witness of C14 on the reference machine: slots 0, 1, 2 are runnable and
slot 0 was dispatched last; three invocations dispatch 1, 2, 0.  After slot 1
has run and blocked, the next two invocations dispatch 2 and 0, not 1. -/
theorem sched_yield_fair_witness :
    k3.sched_i < mos.NENV ∧ mos.ENV_NOT_RUNNABLE ≠ mos.ENV_RUNNABLE ∧
    runnable_slots mos k3 = [0, 1, 2] ∧ runnable_from mos k3 = [1, 2, 0] ∧
    (sched_rounds mos mos.NENV 3 k3).map Prod.fst = some [1, 2, 0] ∧
    (sched_rounds mos mos.NENV 2 k3b).map Prod.fst = some [2, 0] ∧
    ((∃ k', sched_rounds mos mos.NENV (runnable_slots mos k3).length k3
      = some (runnable_from mos k3, k')) ∧
    (runnable_from mos k3).Perm (runnable_slots mos k3) ∧
    (runnable_from mos k3).Nodup ∧
    (∀ (s n fuel : Nat),
      ∀ js ∈ (sched_rounds mos fuel n
          (k3.setEnv s { k3.envs s with env_status := mos.ENV_NOT_RUNNABLE })).map Prod.fst,
        s ∉ js)) :=
  ⟨by decide, by decide, by decide, by decide, by decide, by decide,
    sched_yield_fair mos k3 mos_runKeepsEnvs mos_runKeepsIndex (by decide) (by decide)⟩

end Mos
